import Mathlib

/-!
Verification of the `session` component of pdfrankenstein (session/session.go).

The Go code is shallowly embedded as follows.

* The staging directory's files are keyed by a structured `Path` type whose
  constructors correspond one-to-one to the path-construction helpers of the
  source (`annotPath`, `srcPath`, `thumbPath`, the fixed `src.pdf`,
  `overlay.pdf`, `final.pdf` names, and the temporary-suffix variants such as
  `annotPath+".tmp"`).  Distinct constructors denote distinct path strings,
  since the printf patterns `annot-%d.svg`, `src-%d.svg`, `thumb-%d.png`, …
  are pairwise non-overlapping and `%d` is injective.  `Path.render` gives
  the concrete string the source would build, used verbatim in the error
  messages.
* The file system is `World`: a map from `Path` to an optional `FileInfo`
  (content plus the `os.Stat` modification time, abstracted to a counter that
  advances on every write).
* Each external process invocation (`qpdf`, `pdftocairo`, `inkscape`) is a
  `Cmd` value recording the exact arguments the source passes.  Its behaviour
  is supplied by an `Env` oracle: failure with a Go error value, or success
  with the captured stdout and the content the tool leaves in its designated
  output file.  Operations return the list of commands they actually invoked,
  so claims about which tools run (caching, merge order, page ranges) are
  statements about traces.
* The two pieces of pure Go-library behaviour the session relies on —
  `encoding/xml` attribute decoding and the `srcBGPat` regexp replacement —
  are deterministic functions of the input string and are carried as `Env`
  fields (`parseSvg`, `stripBG`); no claim depends on their internals.
* `panic("invalid page number")` is the `Res.panicked` constructor; Go errors
  are `Except String` carrying the formatted message.
-/

deriving instance DecidableEq for Except

namespace Frank

/-- Content and stat metadata of one staged file: the bytes and the
modification time (`os.Stat(...).ModTime()`), abstracted to a counter. -/
structure FileInfo where
  content : String
  modTime : Nat
deriving DecidableEq

/-- Paths appearing in session.go, one constructor per formatting pattern.
`srcPdf` is `tmpDir/src.pdf`; `annot p` is `annotPath(p)`; `annotTmp p` is
`annotPath(p)+".tmp"`; `annotCleaned p` is `annotPath(p)+".cleaned.svg"`;
`annotPdf p` is `annotPath(p)+".pdf"`; `srcSvg p` is `srcPath(p)`;
`srcSvgTmp p` is `srcPath(p)+".svg"`; `thumb p` is `thumbPath(p)`;
`thumbTmp p` is `thumbPath(p)+".tmp"`; `thumbTmpPng p` is
`thumbPath(p)+".tmp.png"`; `overlayPdf`/`finalPdf` are the fixed merge and
overlay outputs; `outer s` is a path outside the staging directory (the
user-supplied input or destination). -/
inductive Path where
  | srcPdf
  | srcSvg (page : Int)
  | srcSvgTmp (page : Int)
  | annot (page : Int)
  | annotTmp (page : Int)
  | annotCleaned (page : Int)
  | annotPdf (page : Int)
  | thumb (page : Int)
  | thumbTmp (page : Int)
  | thumbTmpPng (page : Int)
  | overlayPdf
  | finalPdf
  | outer (s : String)
deriving DecidableEq

/-- Concrete path string for each `Path`, as the source builds it with
`filepath.Join(tmpDir, fmt.Sprintf(...))`. -/
def Path.render (tmpDir : String) : Path → String
  | .srcPdf => tmpDir ++ "/src.pdf"
  | .srcSvg p => tmpDir ++ "/src-" ++ toString p ++ ".svg"
  | .srcSvgTmp p => tmpDir ++ "/src-" ++ toString p ++ ".svg.svg"
  | .annot p => tmpDir ++ "/annot-" ++ toString p ++ ".svg"
  | .annotTmp p => tmpDir ++ "/annot-" ++ toString p ++ ".svg.tmp"
  | .annotCleaned p => tmpDir ++ "/annot-" ++ toString p ++ ".svg.cleaned.svg"
  | .annotPdf p => tmpDir ++ "/annot-" ++ toString p ++ ".svg.pdf"
  | .thumb p => tmpDir ++ "/thumb-" ++ toString p ++ ".png"
  | .thumbTmp p => tmpDir ++ "/thumb-" ++ toString p ++ ".png.tmp"
  | .thumbTmpPng p => tmpDir ++ "/thumb-" ++ toString p ++ ".png.tmp.png"
  | .overlayPdf => tmpDir ++ "/overlay.pdf"
  | .finalPdf => tmpDir ++ "/final.pdf"
  | .outer s => s

/-- File-system state: contents of every path, plus a clock supplying fresh
modification times for writes performed by the session itself. -/
structure World where
  fs : Path → Option FileInfo
  clock : Nat

/-- Write `c` to `p` (create or truncate), stamping the current clock. -/
def World.write (w : World) (p : Path) (c : String) : World :=
  { fs := fun q => if q = p then some ⟨c, w.clock⟩ else w.fs q,
    clock := w.clock + 1 }

/-- Set the state of `p` to exactly `f` (used for files produced by external
tools, whose stamp the environment chooses; `none` means the tool left no
file there). -/
def World.setFile (w : World) (p : Path) (f : Option FileInfo) : World :=
  { fs := fun q => if q = p then f else w.fs q, clock := w.clock + 1 }

/-- Model of `os.Remove` with the error ignored: the path is simply gone. -/
def World.remove (w : World) (p : Path) : World := w.setFile p none

/-- Model of `os.Rename` with the error ignored: move the file if the source
exists, otherwise leave the world unchanged. -/
def World.rename (w : World) (src dst : Path) : World :=
  match w.fs src with
  | none => w
  | some f =>
      { fs := fun q => if q = src then none else if q = dst then some f else w.fs q,
        clock := w.clock + 1 }

/-- Go error value from a process invocation: `exit` is a `*exec.ExitError`
carrying the exit status and the standard-error text captured by
`cmd.Output()`; `other` is any other error with its message. -/
inductive GoErr where
  | exit (status : Nat) (stderr : String)
  | other (msg : String)
deriving DecidableEq

/-- Go's `err.Error()` rendering: an `*exec.ExitError` prints as
"exit status N" and does not include the captured standard error. -/
def GoErr.message : GoErr → String
  | .exit n _ => "exit status " ++ toString n
  | .other m => m

/-- Translation of `cmdErr` (session.go): if the error is an
`*exec.ExitError`, replace it with `errors.New(string(exitErr.Stderr))`;
otherwise return the error unchanged.  Rendered as the message string. -/
def cmdErr : GoErr → String
  | .exit _ st => st
  | .other m => m

/-- External commands the session spawns, with the exact arguments built by
the source.  `qpdfNPages path` is `qpdf --warning-exit-0 --show-npages path`;
`pdftocairo n src out` is `pdftocairo -f n -png -singlefile -cropbox
-scale-to 200 src out`; `inkExportSvg n out src` is `inkscape --pages=n
--export-type=svg --pdf-poppler --export-filename=out src`; `inkEdit f` is
the blocking GUI invocation `inkscape f`; `inkExportPdf out src` is
`inkscape --export-type=pdf --export-filename=out src`; `qpdfMerge ps out`
is `qpdf --warning-exit-0 --empty --pages ps… -- out`; `qpdfOverlay base ovl
r out` is `qpdf --warning-exit-0 base --overlay ovl --to=r -- out`. -/
inductive Cmd where
  | qpdfNPages (path : String)
  | pdftocairo (pageOneBased : Int) (src : Path) (outArg : Path)
  | inkExportSvg (pageOneBased : Int) (outArg : Path) (src : Path)
  | inkEdit (file : Path)
  | inkExportPdf (outArg : Path) (src : Path)
  | qpdfMerge (pagePdfs : List Path) (out : Path)
  | qpdfOverlay (base : Path) (ovl : Path) (toRange : String) (out : Path)
deriving DecidableEq

/-- Outcome of one external command as observed through `cmd.Output()`:
failure with a Go error, or success with the captured stdout and the state
the tool left in its designated output file (for the interactive edit, the
post-edit state of the edited file itself). -/
inductive ToolOut where
  | fail (e : GoErr)
  | ok (stdout : String) (outFile : Option FileInfo)
deriving DecidableEq

/-- True when the invocation failed. -/
def ToolOut.isFail : ToolOut → Bool
  | .fail _ => true
  | .ok _ _ => false

/-- Three attributes decoded from the source SVG's root element
(`width`, `height`, `viewBox`). -/
structure SvgSpecs where
  width : String
  height : String
  viewBox : String
deriving DecidableEq

/-- Environment of the session: behaviour of each external command, the two
deterministic Go-library computations the session uses (`encoding/xml`
attribute decoding and the `srcBGPat` regexp replacement), and the name
`ioutil.TempDir` hands out for the staging directory. -/
structure Env where
  run : Cmd → ToolOut
  parseSvg : String → Except String SvgSpecs
  stripBG : String → String
  tempDir : String

/-- Result of an operation that may `panic`: the session panics with
"invalid page number" on an out-of-range index. -/
inductive Res (α : Type) where
  | panicked (msg : String)
  | ok (val : α)
deriving DecidableEq

/-- True when the operation panicked. -/
def Res.isPanicked : Res α → Bool
  | .panicked _ => true
  | .ok _ => false

/-- Session state (struct `Session`): the private PDF copy's path, the page
count, the staging directory name and the annotated-page set
(`map[int]struct{}`). -/
structure Session where
  path : Path
  pageCount : Int
  tmpDir : String
  annotated : Finset Int

/-- Translation of `stripunit` (the template helper):
`strings.TrimRight(v, "x%npiemtc")`. -/
def stripunit (v : String) : String :=
  v.dropRightWhile (fun c => ("x%npiemtc".toList).contains c)

/-- Output of `annotTpl.Execute` on the decoded page specs and the source
SVG's path (`Href`): the fixed background-locking SVG document. -/
def renderAnnot (sp : SvgSpecs) (href : String) : String :=
  "<?xml version=\"1.0\" encoding=\"UTF-8\" standalone=\"no\"?>\n<svg\n   width=\""
    ++ sp.width ++ "\"\n   height=\"" ++ sp.height ++ "\"\n   viewBox=\""
    ++ sp.viewBox
    ++ "\"\n   version=\"1.1\"\n   xmlns:xlink=\"http://www.w3.org/1999/xlink\"\n   xmlns=\"http://www.w3.org/2000/svg\"\n   xmlns:sodipodi=\"http://sodipodi.sourceforge.net/DTD/sodipodi-0.dtd\"\n   xmlns:inkscape=\"http://www.inkscape.org/namespaces/inkscape\"\n   xmlns:svg=\"http://www.w3.org/2000/svg\">\n  <g\n     inkscape:label=\"Layer 1\"\n     inkscape:groupmode=\"layer\"\n     id=\"layer1\">\n    <image\n       id=\"src-bg\"\n       preserveAspectRatio=\"none\"\n       width=\""
    ++ stripunit sp.width ++ "\"\n       height=\"" ++ stripunit sp.height
    ++ "\"\n       style=\"image-rendering:optimizeQuality\"\n       xlink:href=\""
    ++ href
    ++ "\"\n       sodipodi:insensitive=\"true\"\n       inkscape:svg-dpi=\"300\"\n       x=\"0\"\n       y=\"0\" />\n  </g>\n</svg>\n"

/-- Whitespace test of `strings.TrimSpace` (ASCII cases). -/
def isSpaceChar (c : Char) : Bool :=
  c = ' ' || c = '\t' || c = '\n' || c = '\x0b' || c = '\x0c' || c = '\r'

/-- Translation of `strings.TrimSpace`: drop leading and trailing
whitespace. -/
def goTrimSpace (s : String) : String :=
  ⟨((s.data.dropWhile isSpaceChar).reverse.dropWhile isSpaceChar).reverse⟩

/-- Value of a decimal digit character. -/
def digitVal (c : Char) : Option Nat :=
  if c = '0' then some 0 else if c = '1' then some 1 else if c = '2' then some 2
  else if c = '3' then some 3 else if c = '4' then some 4 else if c = '5' then some 5
  else if c = '6' then some 6 else if c = '7' then some 7 else if c = '8' then some 8
  else if c = '9' then some 9 else none

/-- Accumulating decimal parse of a digit run; fails on any non-digit. -/
def digitsValAux : List Char → Nat → Option Nat
  | [], acc => some acc
  | c :: cs, acc =>
    match digitVal c with
    | none => none
    | some d => digitsValAux cs (acc * 10 + d)

/-- Translation of `strconv.Atoi`: an optional sign followed by a non-empty
run of decimal digits. -/
def goAtoi (s : String) : Option Int :=
  match s.data with
  | [] => none
  | '-' :: cs =>
    match cs with
    | [] => none
    | _ => (digitsValAux cs 0).map (fun n => -(n : Int))
  | '+' :: cs =>
    match cs with
    | [] => none
    | _ => (digitsValAux cs 0).map (fun n => (n : Int))
  | cs => (digitsValAux cs 0).map (fun n => (n : Int))

/-- Translation of `fileCopy`: open the source (failing with the usual Go
"no such file" error when absent), create the destination and copy the
bytes.  `tmpDir` is only used to render the path in the error message. -/
def fileCopy (src dst : Path) (tmpDir : String) (w : World) :
    Except String Unit × World :=
  match w.fs src with
  | none => (.error ("open " ++ src.render tmpDir ++ ": no such file or directory"), w)
  | some f => (.ok (), w.write dst f.content)

/-- Translation of `New`: query the page count with qpdf (returning
`cmdErr err` on failure), parse it with `strconv.Atoi` after trimming,
create the staging directory and copy the input into it as `src.pdf`. -/
def New (path : String) (w : World) (env : Env) :
    Except String Session × World × List Cmd :=
  let cmd := Cmd.qpdfNPages path
  match env.run cmd with
  | .fail e => (.error (cmdErr e), w, [cmd])
  | .ok out _ =>
    match goAtoi (goTrimSpace out) with
    | none =>
        (.error ("cannot convert page count: strconv.Atoi: parsing \"" ++ goTrimSpace out
          ++ "\": invalid syntax"), w, [cmd])
    | some p =>
      match fileCopy (Path.outer path) Path.srcPdf env.tempDir w with
      | (.error m, w1) => (.error m, w1, [cmd])
      | (.ok _, w1) => (.ok ⟨Path.srcPdf, p, env.tempDir, ∅⟩, w1, [cmd])

/-- Translation of `PageCount`. -/
def PageCount (s : Session) : Int := s.pageCount

/-- Translation of `Thumbnail`: panic when out of range; serve the cached
file when present; otherwise run pdftocairo into `thumbPath+".tmp"` (which
produces `thumbPath+".tmp.png"`) and rename the result over the cache
path. -/
def Thumbnail (s : Session) (page : Int) (w : World) (env : Env) :
    Res (Except String String × World × List Cmd) :=
  if page < 0 ∨ s.pageCount ≤ page then .panicked "invalid page number" else
  match w.fs (Path.thumb page) with
  | some _ => .ok (.ok ((Path.thumb page).render s.tmpDir), w, [])
  | none =>
    let cmd := Cmd.pdftocairo (page + 1) s.path (Path.thumbTmp page)
    match env.run cmd with
    | .fail e =>
        .ok (.error ("failed to generate thumb for page " ++ toString page ++ " of '"
          ++ s.path.render s.tmpDir ++ "': " ++ cmdErr e), w, [cmd])
    | .ok _ outF =>
        let w1 := (w.setFile (Path.thumbTmpPng page) outF).rename
          (Path.thumbTmpPng page) (Path.thumb page)
        .ok (.ok ((Path.thumb page).render s.tmpDir), w1, [cmd])

/-- Step 1 of `Annotate`: export the PDF page to SVG if the per-page source
file is absent (inkscape writes `srcPath+".svg"`, then it is renamed onto
`srcPath`). -/
def annotateStage1 (s : Session) (page : Int) (w : World) (env : Env) :
    Except String Unit × World × List Cmd :=
  match w.fs (Path.srcSvg page) with
  | some _ => (.ok (), w, [])
  | none =>
    let cmd := Cmd.inkExportSvg (page + 1) (Path.srcSvgTmp page) s.path
    match env.run cmd with
    | .fail e =>
        (.error ("failed to convert page " ++ toString page ++ " of '"
          ++ s.path.render s.tmpDir ++ "' to svg: " ++ cmdErr e), w, [cmd])
    | .ok _ outF =>
        ((.ok ()),
          (w.setFile (Path.srcSvgTmp page) outF).rename (Path.srcSvgTmp page) (Path.srcSvg page),
          [cmd])

/-- Step 2 of `Annotate`: if the annotation document is absent, decode the
three attributes from the source SVG, synthesize the background-locking
document into `annotPath+".tmp"` and rename it onto `annotPath`. -/
def annotateStage2 (s : Session) (page : Int) (w : World) (env : Env) :
    Except String Unit × World :=
  match w.fs (Path.annot page) with
  | some _ => (.ok (), w)
  | none =>
    match w.fs (Path.srcSvg page) with
    | none =>
        (.error ("failed to open '" ++ (Path.srcSvg page).render s.tmpDir ++ "': open "
          ++ (Path.srcSvg page).render s.tmpDir ++ ": no such file or directory"), w)
    | some f =>
      match env.parseSvg f.content with
      | .error m =>
          (.error ("failed to parse svg at '" ++ (Path.srcSvg page).render s.tmpDir
            ++ "': " ++ m), w)
      | .ok specs =>
          ((.ok ()),
            ((w.write (Path.annotTmp page)
                (renderAnnot specs ((Path.srcSvg page).render s.tmpDir))).rename
              (Path.annotTmp page) (Path.annot page)))

/-- Translation of `Annotate`: panic when out of range; ensure the source
SVG and the annotation document are staged; stat the annotation document,
run the blocking editor (note: its failure is formatted with the raw error
value, not `cmdErr`), re-stat, and when the modification time changed,
delete the cached thumbnail and add the page to the annotated set. -/
def Annotate (s : Session) (page : Int) (w : World) (env : Env) :
    Res (Except String Bool × Session × World × List Cmd) :=
  if page < 0 ∨ s.pageCount ≤ page then .panicked "invalid page number" else
  match annotateStage1 s page w env with
  | (.error m, w1, tr) => .ok (.error m, s, w1, tr)
  | (.ok _, w1, tr) =>
    match annotateStage2 s page w1 env with
    | (.error m, w2) => .ok (.error m, s, w2, tr)
    | (.ok _, w2) =>
      match w2.fs (Path.annot page) with
      | none =>
          .ok (.error ("failed to stat '" ++ (Path.annot page).render s.tmpDir ++ "': stat "
            ++ (Path.annot page).render s.tmpDir ++ ": no such file or directory"), s, w2, tr)
      | some before =>
        let cmd := Cmd.inkEdit (Path.annot page)
        match env.run cmd with
        | .fail e =>
            .ok (.error ("inkscape exited with error while editing '"
              ++ (Path.annot page).render s.tmpDir ++ "': " ++ e.message), s, w2, tr ++ [cmd])
        | .ok _ outF =>
          let w3 := w2.setFile (Path.annot page) outF
          match w3.fs (Path.annot page) with
          | none =>
              .ok (.error ("failed to stat '" ++ (Path.annot page).render s.tmpDir ++ "': stat "
                ++ (Path.annot page).render s.tmpDir ++ ": no such file or directory"),
                s, w3, tr ++ [cmd])
          | some afterEdit =>
            if afterEdit.modTime ≠ before.modTime then
              .ok (.ok true, { s with annotated := insert page s.annotated },
                w3.remove (Path.thumb page), tr ++ [cmd])
            else
              .ok (.ok false, s, w3, tr ++ [cmd])

/-- Translation of `IsAnnotated`: panic when out of range, then a locked
membership test of the annotated set. -/
def IsAnnotated (s : Session) (page : Int) : Res Bool :=
  if page < 0 ∨ s.pageCount ≤ page then .panicked "invalid page number"
  else .ok (decide (page ∈ s.annotated))

/-- Translation of `HasAnnotations`: `len(s.annotated) > 0`. -/
def HasAnnotations (s : Session) : Bool := decide (0 < s.annotated.card)

/-- Translation of `Clear`: panic when out of range; best-effort removal of
the annotation document and the thumbnail, then delete the index from the
annotated set. -/
def Clear (s : Session) (page : Int) (w : World) : Res (Session × World) :=
  if page < 0 ∨ s.pageCount ≤ page then .panicked "invalid page number" else
  .ok ({ s with annotated := s.annotated.erase page },
    (w.remove (Path.annot page)).remove (Path.thumb page))

/-- Pages collected by `Save`'s loop `for i := 0; i < s.pageCount; i++ {
if !s.IsAnnotated(i) { continue } … }`: the annotated pages in ascending
index order. -/
def annotatedList (s : Session) : List Int :=
  ((List.range s.pageCount.toNat).map (Nat.cast : Nat → Int)).filter
    (fun p => decide (p ∈ s.annotated))

/-- Per-page body of `Save`'s loop: read the annotation document back, strip
the locked background with `srcBGPat.ReplaceAll`, write the cleaned document
to `annotPath+".cleaned.svg"` and export it to `annotPath+".pdf"`. -/
def savePage (s : Session) (env : Env) (i : Int) (w : World) :
    Except String Unit × World × List Cmd :=
  match w.fs (Path.annot i) with
  | none =>
      (.error ("failed to read back '" ++ (Path.annot i).render s.tmpDir ++ "': open "
        ++ (Path.annot i).render s.tmpDir ++ ": no such file or directory"), w, [])
  | some f =>
    let w1 := w.write (Path.annotCleaned i) (env.stripBG f.content)
    let cmd := Cmd.inkExportPdf (Path.annotPdf i) (Path.annotCleaned i)
    match env.run cmd with
    | .fail e =>
        (.error ("failed to convert annotation SVG ('" ++ (Path.annot i).render s.tmpDir
          ++ "') to PDF: " ++ cmdErr e), w1, [cmd])
    | .ok _ outF => (.ok (), w1.setFile (Path.annotPdf i) outF, [cmd])

/-- The whole page loop of `Save`, aborting at the first failing page. -/
def saveLoopGo (s : Session) (env : Env) :
    List Int → World → Except String Unit × World × List Cmd
  | [], w => (.ok (), w, [])
  | i :: rest, w =>
    match savePage s env i w with
    | (.error m, w1, tr) => (.error m, w1, tr)
    | (.ok _, w1, tr) =>
      match saveLoopGo s env rest w1 with
      | (r, w2, tr2) => (r, w2, tr ++ tr2)

/-- The `--to=` page list `Save` builds: one-based page numbers of the
annotated pages, comma-joined (`strings.Join(annotedStr, ",")`). -/
def pageRange (l : List Int) : String :=
  String.intercalate "," (l.map (fun p => toString (p + 1)))

/-- Translation of `Save`: fast path copies the pristine PDF copy to the
destination when no page is annotated; otherwise convert every annotated
page (ascending), merge the per-page PDFs with qpdf into `overlay.pdf`,
overlay that onto the pristine copy restricted to `pageRange`, and copy the
result to the destination as the final step. -/
def Save (s : Session) (path : String) (w : World) (env : Env) :
    Except String Unit × World × List Cmd :=
  if s.annotated = ∅ then
    match fileCopy s.path (Path.outer path) s.tmpDir w with
    | (r, w1) => (r, w1, [])
  else
    match saveLoopGo s env (annotatedList s) w with
    | (.error m, w1, tr) => (.error m, w1, tr)
    | (.ok _, w1, tr) =>
      let mcmd := Cmd.qpdfMerge ((annotatedList s).map Path.annotPdf) Path.overlayPdf
      match env.run mcmd with
      | .fail e =>
          (.error ("failed to merge annotated pages to '" ++ Path.overlayPdf.render s.tmpDir
            ++ "': " ++ cmdErr e), w1, tr ++ [mcmd])
      | .ok _ outF =>
        let w2 := w1.setFile Path.overlayPdf outF
        let ocmd := Cmd.qpdfOverlay s.path Path.overlayPdf (pageRange (annotatedList s))
          Path.finalPdf
        match env.run ocmd with
        | .fail e =>
            (.error ("failed to overlay annotated pages to '" ++ Path.finalPdf.render s.tmpDir
              ++ "': " ++ cmdErr e), w2, tr ++ [mcmd, ocmd])
        | .ok _ outF2 =>
          let w3 := w2.setFile Path.finalPdf outF2
          match fileCopy Path.finalPdf (Path.outer path) s.tmpDir w3 with
          | (r, w4) => (r, w4, tr ++ [mcmd, ocmd])

/-- Translation of `Close`: best-effort removal of every file in the staging
directory and the directory itself, then reset all fields (`annotated = nil`,
`tmpDir = ""`, `pageCount = -1`, `path = ""`). -/
def Close (_s : Session) (w : World) : Session × World :=
  (⟨Path.outer "", -1, "", ∅⟩,
    { fs := fun p => match p with
        | .outer t => w.fs (.outer t)
        | _ => none,
      clock := w.clock + 1 })

/-- Translation of `IsClosed`: `s.pageCount == -1`. -/
def IsClosed (s : Session) : Bool := decide (s.pageCount = -1)

/-- The documented session invariant: every annotated page has an existing
annotation document in the staging directory. -/
def Inv (s : Session) (w : World) : Prop :=
  ∀ p ∈ s.annotated, (w.fs (Path.annot p)).isSome = true

/-- Result projection of an `Annotate` call (its `(bool, error)` pair). -/
def aRes (x : Res (Except String Bool × Session × World × List Cmd)) :
    Option (Except String Bool) :=
  match x with
  | .ok (r, _, _, _) => some r
  | .panicked _ => none

/-- Trace projection of an `Annotate` call: the external commands invoked. -/
def aTrace (x : Res (Except String Bool × Session × World × List Cmd)) :
    Option (List Cmd) :=
  match x with
  | .ok (_, _, _, tr) => some tr
  | .panicked _ => none

lemma World.fs_write (w : World) (p : Path) (c : String) (q : Path) :
    (w.write p c).fs q = if q = p then some ⟨c, w.clock⟩ else w.fs q := rfl

lemma World.fs_setFile (w : World) (p : Path) (f : Option FileInfo) (q : Path) :
    (w.setFile p f).fs q = if q = p then f else w.fs q := rfl

lemma World.fs_remove (w : World) (p : Path) (q : Path) :
    (w.remove p).fs q = if q = p then none else w.fs q := rfl

lemma World.fs_rename (w : World) (src dst : Path) (q : Path) :
    (w.rename src dst).fs q =
      match w.fs src with
      | none => w.fs q
      | some f => if q = src then none else if q = dst then some f else w.fs q := by
  unfold World.rename
  cases w.fs src <;> rfl

/-- C8: the page-indexed operations `Thumbnail`, `Annotate`, `Clear` and
`IsAnnotated` panic with "invalid page number" on every out-of-range page
index, and never take the panic branch on an in-range index. -/
theorem c8_out_of_range_contract (s : Session) (w : World) (env : Env) (page : Int) :
    ((page < 0 ∨ s.pageCount ≤ page) →
      Thumbnail s page w env = .panicked "invalid page number" ∧
      Annotate s page w env = .panicked "invalid page number" ∧
      Clear s page w = .panicked "invalid page number" ∧
      IsAnnotated s page = .panicked "invalid page number") ∧
    (0 ≤ page → page < s.pageCount →
      (Thumbnail s page w env).isPanicked = false ∧
      (Annotate s page w env).isPanicked = false ∧
      (Clear s page w).isPanicked = false ∧
      (IsAnnotated s page).isPanicked = false) := by
  constructor
  · intro h
    exact ⟨by unfold Thumbnail; rw [if_pos h],
           by unfold Annotate; rw [if_pos h],
           by unfold Clear; rw [if_pos h],
           by unfold IsAnnotated; rw [if_pos h]⟩
  · intro h0 h1
    have hn : ¬(page < 0 ∨ s.pageCount ≤ page) := by omega
    refine ⟨?_, ?_, ?_, ?_⟩
    · simp only [Thumbnail, if_neg hn]
      (repeat' split) <;> rfl
    · simp only [Annotate, if_neg hn]
      (repeat' split) <;> rfl
    · simp only [Clear, if_neg hn]
      rfl
    · simp only [IsAnnotated, if_neg hn]
      rfl

/-- Concrete session used for counterexamples: three pages, page 0
annotated. -/
def cexSession : Session := ⟨Path.srcPdf, 3, "/tmp/pf", {0}⟩

/-- Concrete empty file system used for counterexamples. -/
def cexWorld : World := ⟨fun _ => none, 0⟩

/-- C9 counterexample: after `Close`, `HasAnnotations` succeeds and returns
`false` and `PageCount` succeeds and returns the `-1` sentinel — neither
operation fails, contradicting the claim that every subsequent operation on
a closed session fails. -/
theorem c9_counterexample :
    HasAnnotations (Close cexSession cexWorld).1 = false ∧
    PageCount (Close cexSession cexWorld).1 = -1 ∧
    IsClosed (Close cexSession cexWorld).1 = true := by decide

/-- C9 amended: after `Close`, `IsClosed` returns true, the page-indexed
operations panic for every page index (the `-1` page-count sentinel makes
every index out of range), and `Save` fails with a file-open error on the
cleared source path; but `PageCount` silently returns `-1` and
`HasAnnotations` silently returns `false` rather than failing. -/
theorem c9_after_close (s : Session) (w : World) (page : Int) (dst : String) (env : Env)
    (h0 : w.fs (Path.outer "") = none) :
    IsClosed (Close s w).1 = true ∧
    Thumbnail (Close s w).1 page (Close s w).2 env = .panicked "invalid page number" ∧
    Annotate (Close s w).1 page (Close s w).2 env = .panicked "invalid page number" ∧
    Clear (Close s w).1 page (Close s w).2 = .panicked "invalid page number" ∧
    IsAnnotated (Close s w).1 page = .panicked "invalid page number" ∧
    (Save (Close s w).1 dst (Close s w).2 env).1 =
      .error "open : no such file or directory" ∧
    HasAnnotations (Close s w).1 = false ∧
    PageCount (Close s w).1 = -1 := by
  have hrange : page < 0 ∨ (Close s w).1.pageCount ≤ page := by
    show page < 0 ∨ (-1 : Int) ≤ page
    omega
  have hfs : (Close s w).2.fs (Path.outer "") = none := h0
  refine ⟨rfl, ?_, ?_, ?_, ?_, ?_, rfl, rfl⟩
  · unfold Thumbnail; rw [if_pos hrange]
  · unfold Annotate; rw [if_pos hrange]
  · unfold Clear; rw [if_pos hrange]
  · unfold IsAnnotated; rw [if_pos hrange]
  · have hmsg : ("open " ++ Path.render "" (Path.outer "") ++ ": no such file or directory")
        = "open : no such file or directory" := by decide
    have hann2 : (Close s w).1.annotated = ∅ := rfl
    have hpath : (Close s w).1.path = Path.outer "" := rfl
    have htd : (Close s w).1.tmpDir = "" := rfl
    simp only [Save, if_pos hann2, fileCopy, hpath, htd, hfs, hmsg]

/-- Concrete one-page session with pre-staged source SVG and annotation
document for page 0, used for the C7 counterexample. -/
def c7Session : Session := ⟨Path.srcPdf, 1, "/tmp/pf", ∅⟩

/-- World for the C7 counterexample. -/
def c7World : World :=
  ⟨fun p => match p with
    | .srcSvg 0 => some ⟨"S", 4⟩
    | .annot 0 => some ⟨"A", 5⟩
    | _ => none, 10⟩

/-- Environment for the C7 counterexample: the interactive editor exits with
status 1 and standard-error text "boom". -/
def c7Env : Env :=
  ⟨fun c => match c with
    | .inkEdit _ => .fail (.exit 1 "boom")
    | _ => .ok "" none,
   fun _ => .error "no parse", fun c => c, "/tmp/pf"⟩

/-- C7 counterexample: when the interactive editor launch fails with
standard-error text "boom", the error `Annotate` returns is the formatted
raw Go error — "exit status 1" — and the stderr text appears nowhere in the
message (the message contains no letter of "boom" at all), because the
source formats `err` instead of `cmdErr(err)` at this one call site. -/
theorem c7_counterexample :
    aRes (Annotate c7Session 0 c7World c7Env) =
      some (.error
        "inkscape exited with error while editing '/tmp/pf/annot-0.svg': exit status 1") ∧
    ¬ ('b' ∈ "inkscape exited with error while editing '/tmp/pf/annot-0.svg': exit status 1".data) ∧
    'b' ∈ "boom".data := by decide

/-- C7 amended: the page-count query at `Open` returns the tool's
standard-error text verbatim as the error message; the page export in
`Annotate` step 1 embeds the standard-error text in its message via
`cmdErr`; but the interactive editor launch in step 3 formats the raw Go
error value, producing "exit status N" and discarding the captured
standard-error text. -/
theorem c7_stderr_surfacing (orig : String) (w : World) (env : Env) (s : Session) (page : Int) :
    (∀ e, env.run (Cmd.qpdfNPages orig) = .fail e →
      (New orig w env).1 = Except.error (cmdErr e)) ∧
    (∀ e, 0 ≤ page → page < s.pageCount → w.fs (Path.srcSvg page) = none →
      env.run (Cmd.inkExportSvg (page + 1) (Path.srcSvgTmp page) s.path) = .fail e →
      aRes (Annotate s page w env) = some (Except.error
        ("failed to convert page " ++ toString page ++ " of '" ++ s.path.render s.tmpDir
          ++ "' to svg: " ++ cmdErr e))) ∧
    (∀ n st before, 0 ≤ page → page < s.pageCount →
      (w.fs (Path.srcSvg page)).isSome = true → w.fs (Path.annot page) = some before →
      env.run (Cmd.inkEdit (Path.annot page)) = .fail (GoErr.exit n st) →
      aRes (Annotate s page w env) = some (Except.error
        ("inkscape exited with error while editing '" ++ (Path.annot page).render s.tmpDir
          ++ "': " ++ GoErr.message (GoErr.exit n st)))) ∧
    (∀ n st, GoErr.message (GoErr.exit n st) = "exit status " ++ toString n ∧
      cmdErr (GoErr.exit n st) = st) := by
  refine ⟨?_, ?_, ?_, fun n st => ⟨rfl, rfl⟩⟩
  · intro e he
    simp only [New, he]
  · intro e h0 h1 hsrc hexp
    have hn : ¬(page < 0 ∨ s.pageCount ≤ page) := by omega
    simp only [Annotate, annotateStage1, if_neg hn, hsrc, hexp, aRes]
  · intro n st before h0 h1 hsrc hann hedit
    have hn : ¬(page < 0 ∨ s.pageCount ≤ page) := by omega
    obtain ⟨g, hg⟩ := Option.isSome_iff_exists.mp hsrc
    simp only [Annotate, annotateStage1, annotateStage2, if_neg hn, hg, hann, hedit, aRes]

/-- Evaluation of `Annotate` on a fully staged page: the source SVG exists,
the annotation document exists with stat `before`, and the editor returns
leaving the file in state `afterE`.  The call invokes only the editor, and
the outcome is decided by comparing the modification times. -/
lemma annotate_staged_eq (s : Session) (page : Int) (w : World) (env : Env)
    (so : String) (before afterE : FileInfo)
    (h0 : 0 ≤ page) (h1 : page < s.pageCount)
    (hsrc : (w.fs (Path.srcSvg page)).isSome = true)
    (hann : w.fs (Path.annot page) = some before)
    (hedit : env.run (Cmd.inkEdit (Path.annot page)) = .ok so (some afterE)) :
    Annotate s page w env = Res.ok (Except.ok (decide (afterE.modTime ≠ before.modTime)),
      (if afterE.modTime ≠ before.modTime then
        { s with annotated := insert page s.annotated } else s),
      (if afterE.modTime ≠ before.modTime then
        (w.setFile (Path.annot page) (some afterE)).remove (Path.thumb page)
      else w.setFile (Path.annot page) (some afterE)),
      [Cmd.inkEdit (Path.annot page)]) := by
  have hn : ¬(page < 0 ∨ s.pageCount ≤ page) := by omega
  obtain ⟨g, hg⟩ := Option.isSome_iff_exists.mp hsrc
  have hafter : ((w.setFile (Path.annot page) (some afterE)).fs (Path.annot page))
      = some afterE := by simp [World.fs_setFile]
  simp only [Annotate, annotateStage1, annotateStage2, if_neg hn, hg, hann, hedit, hafter]
  rcases eq_or_ne afterE.modTime before.modTime with he | he
  · simp [he]
  · simp [he]

/-- C3: on a staged page, `Annotate` returns true exactly when the
modification time after the blocking edit differs from the one recorded
before it; on true the thumbnail is deleted and the page joins the
annotated set, on false the annotated set is unchanged. -/
theorem c3_change_detection (s : Session) (page : Int) (w : World) (env : Env)
    (so : String) (before afterE : FileInfo)
    (h0 : 0 ≤ page) (h1 : page < s.pageCount)
    (hsrc : (w.fs (Path.srcSvg page)).isSome = true)
    (hann : w.fs (Path.annot page) = some before)
    (hedit : env.run (Cmd.inkEdit (Path.annot page)) = .ok so (some afterE)) :
    Annotate s page w env = Res.ok (Except.ok (decide (afterE.modTime ≠ before.modTime)),
      (if afterE.modTime ≠ before.modTime then
        { s with annotated := insert page s.annotated } else s),
      (if afterE.modTime ≠ before.modTime then
        (w.setFile (Path.annot page) (some afterE)).remove (Path.thumb page)
      else w.setFile (Path.annot page) (some afterE)),
      [Cmd.inkEdit (Path.annot page)]) ∧
    (afterE.modTime ≠ before.modTime →
      ((w.setFile (Path.annot page) (some afterE)).remove (Path.thumb page)).fs
          (Path.thumb page) = none ∧
      IsAnnotated { s with annotated := insert page s.annotated } page = Res.ok true) ∧
    (afterE.modTime = before.modTime → page ∉ s.annotated →
      IsAnnotated s page = Res.ok false) := by
  have hn : ¬(page < 0 ∨ s.pageCount ≤ page) := by omega
  refine ⟨annotate_staged_eq s page w env so before afterE h0 h1 hsrc hann hedit, ?_, ?_⟩
  · intro _
    constructor
    · simp [World.fs_remove]
    · simp [IsAnnotated, hn]
  · intro _ hmem
    simp [IsAnnotated, hn, hmem]

/-- Evaluation of `Annotate` on a cold page (neither the source SVG nor the
annotation document staged yet), with a benign environment: the export tool
and the editor both run once, and afterwards both staged files exist. -/
lemma annotate_cold (s : Session) (page : Int) (w : World) (env : Env)
    (sf ef : FileInfo) (so2 so3 : String) (specs : SvgSpecs)
    (h0 : 0 ≤ page) (h1 : page < s.pageCount)
    (hsrc : w.fs (Path.srcSvg page) = none)
    (hannot : w.fs (Path.annot page) = none)
    (hexp : env.run (Cmd.inkExportSvg (page + 1) (Path.srcSvgTmp page) s.path) = .ok so2 (some sf))
    (hparse : env.parseSvg sf.content = .ok specs)
    (hedit : env.run (Cmd.inkEdit (Path.annot page)) = .ok so3 (some ef)) :
    ∃ b1 s1 w1, Annotate s page w env = Res.ok (Except.ok b1, s1, w1,
        [Cmd.inkExportSvg (page + 1) (Path.srcSvgTmp page) s.path,
         Cmd.inkEdit (Path.annot page)]) ∧
      w1.fs (Path.srcSvg page) = some sf ∧ w1.fs (Path.annot page) = some ef ∧
      s1.pageCount = s.pageCount ∧ s1.tmpDir = s.tmpDir := by
  have hn : ¬(page < 0 ∨ s.pageCount ≤ page) := by omega
  have hA_ann : ((w.setFile (Path.srcSvgTmp page) (some sf)).rename (Path.srcSvgTmp page)
      (Path.srcSvg page)).fs (Path.annot page) = none := by
    simp [World.fs_rename, World.fs_setFile, hannot]
  have hA_src : ((w.setFile (Path.srcSvgTmp page) (some sf)).rename (Path.srcSvgTmp page)
      (Path.srcSvg page)).fs (Path.srcSvg page) = some sf := by
    simp [World.fs_rename, World.fs_setFile]
  simp only [Annotate, annotateStage1, annotateStage2, if_neg hn, hsrc, hexp, hA_ann, hA_src,
    hparse, hedit]
  simp only [World.fs_rename, World.fs_setFile, World.fs_write]
  simp only [reduceCtorEq, if_true, if_false, ite_true, ite_false, reduceIte]
  rcases eq_or_ne ef.modTime ((w.setFile (Path.srcSvgTmp page) (some sf)).rename
      (Path.srcSvgTmp page) (Path.srcSvg page)).clock with he | he
  · rw [if_neg (not_not_intro he)]
    refine ⟨_, _, _, rfl, ?_, ?_, rfl, rfl⟩
    · simp [World.fs_setFile, World.fs_rename, World.fs_write, hA_src]
    · simp [World.fs_setFile]
  · rw [if_pos he]
    refine ⟨_, _, _, rfl, ?_, ?_, rfl, rfl⟩
    · simp [World.fs_remove, World.fs_setFile, World.fs_rename, World.fs_write, hA_src]
    · simp [World.fs_remove, World.fs_setFile]

/-- C6: staging is idempotent.  With a cold cache and a benign environment,
a first `Thumbnail(p)` invokes the rasterizer once and a second consecutive
call serves the cached file with an empty command trace; a first
`Annotate(p)` invokes the page export once, and a second consecutive call
invokes only the editor — the export tool is not re-run and the annotation
document is not re-synthesized. -/
theorem c6_idempotent_staging (s : Session) (page : Int) (w : World) (env : Env)
    (tf sf ef : FileInfo) (so1 so2 so3 : String) (specs : SvgSpecs)
    (h0 : 0 ≤ page) (h1 : page < s.pageCount)
    (hthumb : w.fs (Path.thumb page) = none)
    (hrast : env.run (Cmd.pdftocairo (page + 1) s.path (Path.thumbTmp page)) = .ok so1 (some tf))
    (hsrc : w.fs (Path.srcSvg page) = none)
    (hannot : w.fs (Path.annot page) = none)
    (hexp : env.run (Cmd.inkExportSvg (page + 1) (Path.srcSvgTmp page) s.path) = .ok so2 (some sf))
    (hparse : env.parseSvg sf.content = .ok specs)
    (hedit : env.run (Cmd.inkEdit (Path.annot page)) = .ok so3 (some ef)) :
    (∃ w1, Thumbnail s page w env = .ok (.ok ((Path.thumb page).render s.tmpDir), w1,
        [Cmd.pdftocairo (page + 1) s.path (Path.thumbTmp page)]) ∧
      Thumbnail s page w1 env = .ok (.ok ((Path.thumb page).render s.tmpDir), w1, [])) ∧
    (∃ b1 s1 w1, Annotate s page w env = .ok (.ok b1, s1, w1,
        [Cmd.inkExportSvg (page + 1) (Path.srcSvgTmp page) s.path,
         Cmd.inkEdit (Path.annot page)]) ∧
      ∃ s2 w2, Annotate s1 page w1 env = .ok (.ok false, s2, w2,
        [Cmd.inkEdit (Path.annot page)])) := by
  have hn : ¬(page < 0 ∨ s.pageCount ≤ page) := by omega
  constructor
  · have hcache : ((w.setFile (Path.thumbTmpPng page) (some tf)).rename (Path.thumbTmpPng page)
        (Path.thumb page)).fs (Path.thumb page) = some tf := by
      simp [World.fs_rename, World.fs_setFile]
    refine ⟨(w.setFile (Path.thumbTmpPng page) (some tf)).rename (Path.thumbTmpPng page)
      (Path.thumb page), ?_, ?_⟩
    · simp only [Thumbnail, if_neg hn, hthumb, hrast]
    · simp only [Thumbnail, if_neg hn, hcache]
  · obtain ⟨b1, s1, w1, hEq1, hw1src, hw1ann, hpc, _⟩ :=
      annotate_cold s page w env sf ef so2 so3 specs h0 h1 hsrc hannot hexp hparse hedit
    have h1' : page < s1.pageCount := by rw [hpc]; exact h1
    have h0' : (0:Int) ≤ page := h0
    have hsrc1 : (w1.fs (Path.srcSvg page)).isSome = true := by rw [hw1src]; rfl
    have hEq2 := annotate_staged_eq s1 page w1 env so3 ef ef h0' h1' hsrc1 hw1ann hedit
    refine ⟨b1, s1, w1, hEq1, s1, w1.setFile (Path.annot page) (some ef), ?_⟩
    simpa using hEq2

/-- The per-page save step only writes the cleaned SVG and the exported
page PDF; every other path is untouched. -/
lemma savePage_fs (s : Session) (env : Env) (i : Int) (w : World) (q : Path)
    (h1 : q ≠ Path.annotCleaned i) (h2 : q ≠ Path.annotPdf i) :
    ((savePage s env i w).2.1).fs q = w.fs q := by
  cases hA : w.fs (Path.annot i)
  · simp [savePage, hA]
  · cases hR : env.run (Cmd.inkExportPdf (Path.annotPdf i) (Path.annotCleaned i)) <;>
      simp [savePage, hA, hR, World.fs_setFile, World.fs_write, h1, h2]

/-- A successful per-page save step invoked exactly the SVG-to-PDF export. -/
lemma savePage_ok_trace (s : Session) (env : Env) (i : Int) (w : World)
    (h : (savePage s env i w).1 = .ok ()) :
    (savePage s env i w).2.2 = [Cmd.inkExportPdf (Path.annotPdf i) (Path.annotCleaned i)] := by
  cases hA : w.fs (Path.annot i)
  · simp [savePage, hA] at h
  · cases hR : env.run (Cmd.inkExportPdf (Path.annotPdf i) (Path.annotCleaned i))
    · simp [savePage, hA, hR] at h
    · simp [savePage, hA, hR]

/-- A successful save loop invoked exactly one SVG-to-PDF export per page,
in the order of its page list. -/
lemma saveLoopGo_ok_trace (s : Session) (env : Env) (l : List Int) :
    ∀ w, (saveLoopGo s env l w).1 = .ok () →
      (saveLoopGo s env l w).2.2 =
        l.map (fun i => Cmd.inkExportPdf (Path.annotPdf i) (Path.annotCleaned i)) := by
  induction l with
  | nil => intro w _; simp [saveLoopGo]
  | cons i rest ih =>
    intro w h
    rcases hP : savePage s env i w with ⟨r1, w1, tr1⟩
    cases r1 with
    | error m => simp [saveLoopGo, hP] at h
    | ok u =>
      cases u
      rcases hL : saveLoopGo s env rest w1 with ⟨r2, w2, tr2⟩
      have hred : saveLoopGo s env (i :: rest) w = (r2, w2, tr1 ++ tr2) := by
        simp [saveLoopGo, hP, hL]
      rw [hred] at h ⊢
      have ht1 : tr1 = [Cmd.inkExportPdf (Path.annotPdf i) (Path.annotCleaned i)] := by
        have := savePage_ok_trace s env i w (by rw [hP])
        rw [hP] at this
        exact this
      have ht2 : tr2 = rest.map (fun j => Cmd.inkExportPdf (Path.annotPdf j) (Path.annotCleaned j)) := by
        have := ih w1 (by rw [hL]; exact h)
        rw [hL] at this
        exact this
      simp [ht1, ht2]

/-- The save loop only writes cleaned SVGs and exported page PDFs. -/
lemma saveLoopGo_fs (s : Session) (env : Env) (l : List Int) :
    ∀ w (q : Path), (∀ i ∈ l, q ≠ Path.annotCleaned i ∧ q ≠ Path.annotPdf i) →
      ((saveLoopGo s env l w).2.1).fs q = w.fs q := by
  induction l with
  | nil => intro w q _; simp [saveLoopGo]
  | cons i rest ih =>
    intro w q hq
    rcases hP : savePage s env i w with ⟨r1, w1, tr1⟩
    have hw1 : w1.fs q = w.fs q := by
      have := savePage_fs s env i w q (hq i (by simp)).1 (hq i (by simp)).2
      rw [hP] at this
      exact this
    cases r1 with
    | error m => simp [saveLoopGo, hP, hw1]
    | ok u =>
      cases u
      rcases hL : saveLoopGo s env rest w1 with ⟨r2, w2, tr2⟩
      have hw2 : w2.fs q = w1.fs q := by
        have := ih w1 q (fun j hj => hq j (by simp [hj]))
        rw [hL] at this
        exact this
      simp [saveLoopGo, hP, hL, hw2, hw1]

/-- When every page of the list has its annotation document staged and its
SVG-to-PDF export succeeds, the save loop succeeds. -/
lemma saveLoopGo_allOk (s : Session) (env : Env) (l : List Int) :
    ∀ w, (∀ i ∈ l, (w.fs (Path.annot i)).isSome = true ∧
        (env.run (Cmd.inkExportPdf (Path.annotPdf i) (Path.annotCleaned i))).isFail = false) →
      (saveLoopGo s env l w).1 = .ok () := by
  induction l with
  | nil => intro w _; simp [saveLoopGo]
  | cons i rest ih =>
    intro w hall
    obtain ⟨hA, hR⟩ := hall i (by simp)
    obtain ⟨g, hg⟩ := Option.isSome_iff_exists.mp hA
    cases hRun : env.run (Cmd.inkExportPdf (Path.annotPdf i) (Path.annotCleaned i)) with
    | fail e => rw [hRun] at hR; simp [ToolOut.isFail] at hR
    | ok so oF =>
      have hP : savePage s env i w =
          (.ok (), (w.write (Path.annotCleaned i) (env.stripBG g.content)).setFile
            (Path.annotPdf i) oF, [Cmd.inkExportPdf (Path.annotPdf i) (Path.annotCleaned i)]) := by
        simp [savePage, hg, hRun]
      have hrest : ∀ j ∈ rest,
          ((((w.write (Path.annotCleaned i) (env.stripBG g.content)).setFile
            (Path.annotPdf i) oF)).fs (Path.annot j)).isSome = true ∧
          (env.run (Cmd.inkExportPdf (Path.annotPdf j) (Path.annotCleaned j))).isFail = false := by
        intro j hj
        refine ⟨?_, (hall j (by simp [hj])).2⟩
        have : ((w.write (Path.annotCleaned i) (env.stripBG g.content)).setFile
            (Path.annotPdf i) oF).fs (Path.annot j) = w.fs (Path.annot j) := by
          simp [World.fs_setFile, World.fs_write]
        rw [this]
        exact (hall j (by simp [hj])).1
      have := ih _ hrest
      rcases hL : saveLoopGo s env rest ((w.write (Path.annotCleaned i)
          (env.stripBG g.content)).setFile (Path.annotPdf i) oF) with ⟨r2, w2, tr2⟩
      rw [hL] at this
      simp [saveLoopGo, hP, hL, this]

/-- The status and trace of a per-page save step depend only on the content
of the page's annotation document. -/
lemma savePage_congr (s : Session) (env : Env) (i : Int) (w w' : World)
    (h : Option.map FileInfo.content (w.fs (Path.annot i))
      = Option.map FileInfo.content (w'.fs (Path.annot i))) :
    (savePage s env i w).1 = (savePage s env i w').1 ∧
    (savePage s env i w).2.2 = (savePage s env i w').2.2 := by
  cases hA : w.fs (Path.annot i) <;> cases hA' : w'.fs (Path.annot i) <;>
    rw [hA, hA'] at h
  · simp [savePage, hA, hA']
  · simp at h
  · simp at h
  · cases hR : env.run (Cmd.inkExportPdf (Path.annotPdf i) (Path.annotCleaned i)) <;>
      simp [savePage, hA, hA', hR]

/-- The status and trace of the save loop depend only on the contents of the
annotation documents of its page list. -/
lemma saveLoopGo_congr (s : Session) (env : Env) (l : List Int) :
    ∀ w w', (∀ i ∈ l, Option.map FileInfo.content (w.fs (Path.annot i))
        = Option.map FileInfo.content (w'.fs (Path.annot i))) →
      (saveLoopGo s env l w).1 = (saveLoopGo s env l w').1 ∧
      (saveLoopGo s env l w).2.2 = (saveLoopGo s env l w').2.2 := by
  induction l with
  | nil => intro w w' _; simp [saveLoopGo]
  | cons i rest ih =>
    intro w w' hagree
    have hcg := savePage_congr s env i w w' (hagree i (by simp))
    rcases hP : savePage s env i w with ⟨r1, w1, tr1⟩
    rcases hP' : savePage s env i w' with ⟨r1', w1', tr1'⟩
    rw [hP, hP'] at hcg
    obtain ⟨hr, htr⟩ := hcg
    simp only at hr htr
    subst hr htr
    cases r1 with
    | error m => simp [saveLoopGo, hP, hP']
    | ok u =>
      cases u
      have hagree1 : ∀ j ∈ rest, Option.map FileInfo.content (w1.fs (Path.annot j))
          = Option.map FileInfo.content (w1'.fs (Path.annot j)) := by
        intro j hj
        have hf : w1.fs (Path.annot j) = w.fs (Path.annot j) := by
          have := savePage_fs s env i w (Path.annot j) (by simp) (by simp)
          rw [hP] at this; exact this
        have hf' : w1'.fs (Path.annot j) = w'.fs (Path.annot j) := by
          have := savePage_fs s env i w' (Path.annot j) (by simp) (by simp)
          rw [hP'] at this; exact this
        rw [hf, hf']
        exact hagree j (by simp [hj])
      have hihr := ih w1 w1' hagree1
      rcases hL : saveLoopGo s env rest w1 with ⟨r2, w2, tr2⟩
      rcases hL' : saveLoopGo s env rest w1' with ⟨r2', w2', tr2'⟩
      rw [hL, hL'] at hihr
      obtain ⟨hr2, htr2⟩ := hihr
      simp only at hr2 htr2
      simp [saveLoopGo, hP, hP', hL, hL', hr2, htr2]

/-- The save loop over an appended list: once the first part succeeds, the
overall status is the status of the second part run on the intermediate
world. -/
lemma saveLoopGo_append_result (s : Session) (env : Env) (l₁ l₂ : List Int) :
    ∀ w, (saveLoopGo s env l₁ w).1 = .ok () →
      (saveLoopGo s env (l₁ ++ l₂) w).1 =
        (saveLoopGo s env l₂ ((saveLoopGo s env l₁ w).2.1)).1 := by
  induction l₁ with
  | nil => intro w _; simp [saveLoopGo]
  | cons j rest ih =>
    intro w h
    rcases hP : savePage s env j w with ⟨r1, w1, tr1⟩
    cases r1 with
    | error m => simp [saveLoopGo, hP] at h
    | ok u =>
      cases u
      rcases hL : saveLoopGo s env rest w1 with ⟨r2, w2, tr2⟩
      have h2 : r2 = .ok () := by
        have h' := h
        simp only [saveLoopGo, hP, hL] at h'
        exact h'
      subst h2
      have hih := ih w1 (by rw [hL])
      rw [hL] at hih
      rcases hLa : saveLoopGo s env (rest ++ l₂) w1 with ⟨ra, wa, tra⟩
      rw [hLa] at hih
      simp only at hih
      have hrhs : (saveLoopGo s env (j :: rest) w).2.1 = w2 := by
        simp [saveLoopGo, hP, hL]
      rw [hrhs]
      have hgoal : (saveLoopGo s env ((j :: rest) ++ l₂) w).1 = ra := by
        simp [saveLoopGo, hP, hLa, List.cons_append]
      rw [hgoal]
      exact hih

/-- Frame of `Save`: any path other than the cleaned SVGs, the exported
page PDFs, the merge and overlay outputs and the destination is untouched. -/
lemma save_fs (s : Session) (dst : String) (w : World) (env : Env) (q : Path)
    (hq1 : ∀ i, q ≠ Path.annotCleaned i) (hq2 : ∀ i, q ≠ Path.annotPdf i)
    (hq3 : q ≠ Path.overlayPdf) (hq4 : q ≠ Path.finalPdf) (hq5 : q ≠ Path.outer dst) :
    ((Save s dst w env).2.1).fs q = w.fs q := by
  by_cases hq : s.annotated = ∅
  · cases hS : w.fs s.path <;>
      simp [Save, hq, fileCopy, hS, World.fs_write, hq5]
  · rcases hL : saveLoopGo s env (annotatedList s) w with ⟨r1, w1, tr1⟩
    have hw1 : w1.fs q = w.fs q := by
      have := saveLoopGo_fs s env (annotatedList s) w q (fun i _ => ⟨hq1 i, hq2 i⟩)
      rw [hL] at this; exact this
    cases r1 with
    | error m => simp [Save, hq, hL, hw1]
    | ok u =>
      cases u
      cases hM : env.run (Cmd.qpdfMerge ((annotatedList s).map Path.annotPdf) Path.overlayPdf) with
      | fail e => simp [Save, hq, hL, hM, hw1]
      | ok so1 oF1 =>
        cases hO : env.run (Cmd.qpdfOverlay s.path Path.overlayPdf
            (pageRange (annotatedList s)) Path.finalPdf) with
        | fail e => simp [Save, hq, hL, hM, hO, World.fs_setFile, hq3, hw1]
        | ok so2 oF2 =>
          cases hF : ((w1.setFile Path.overlayPdf oF1).setFile Path.finalPdf oF2).fs
              Path.finalPdf with
          | none =>
            simp [Save, hq, hL, hM, hO, fileCopy, hF, World.fs_setFile, hq3, hq4, hw1]
          | some g =>
            simp [Save, hq, hL, hM, hO, fileCopy, hF, World.fs_setFile, World.fs_write,
              hq3, hq4, hq5, hw1]

/-- When `Save` fails, the destination path is untouched: the destination is
written only as the last step, after every other step has succeeded. -/
lemma save_error_dst (s : Session) (dst : String) (w : World) (env : Env) (m : String)
    (h : (Save s dst w env).1 = .error m) :
    ((Save s dst w env).2.1).fs (Path.outer dst) = w.fs (Path.outer dst) := by
  by_cases hq : s.annotated = ∅
  · cases hS : w.fs s.path
    · simp [Save, hq, fileCopy, hS]
    · simp [Save, hq, fileCopy, hS] at h
  · rcases hL : saveLoopGo s env (annotatedList s) w with ⟨r1, w1, tr1⟩
    have hw1 : w1.fs (Path.outer dst) = w.fs (Path.outer dst) := by
      have := saveLoopGo_fs s env (annotatedList s) w (Path.outer dst)
        (fun i _ => ⟨by simp, by simp⟩)
      rw [hL] at this; exact this
    cases r1 with
    | error m1 => simp [Save, hq, hL, hw1]
    | ok u =>
      cases u
      cases hM : env.run (Cmd.qpdfMerge ((annotatedList s).map Path.annotPdf) Path.overlayPdf) with
      | fail e => simp [Save, hq, hL, hM, hw1]
      | ok so1 oF1 =>
        cases hO : env.run (Cmd.qpdfOverlay s.path Path.overlayPdf
            (pageRange (annotatedList s)) Path.finalPdf) with
        | fail e => simp [Save, hq, hL, hM, hO, World.fs_setFile, hw1]
        | ok so2 oF2 =>
          cases hF : ((w1.setFile Path.overlayPdf oF1).setFile Path.finalPdf oF2).fs
              Path.finalPdf with
          | none => simp [Save, hq, hL, hM, hO, fileCopy, hF, World.fs_setFile, hw1]
          | some g => simp [Save, hq, hL, hM, hO, fileCopy, hF] at h

/-- The page list `Save` collects is sorted in ascending page order. -/
lemma annotatedList_sorted (s : Session) : List.Sorted (· < ·) (annotatedList s) := by
  unfold annotatedList
  exact ((List.pairwise_lt_range s.pageCount.toNat).map (Nat.cast : Nat → Int)
    (fun a b h => by exact_mod_cast h)).filter _

/-- When every annotated page is in range, the page list `Save` collects is
exactly the annotated set. -/
lemma annotatedList_mem (s : Session)
    (hrange : ∀ p ∈ s.annotated, 0 ≤ p ∧ p < s.pageCount) (p : Int) :
    p ∈ annotatedList s ↔ p ∈ s.annotated := by
  unfold annotatedList
  simp only [List.mem_filter, List.mem_map, List.mem_range, decide_eq_true_eq]
  constructor
  · rintro ⟨_, hp⟩
    exact hp
  · intro hp
    obtain ⟨h0, h1⟩ := hrange p hp
    refine ⟨⟨p.toNat, ?_, ?_⟩, hp⟩
    · omega
    · omega

/-- C1: on a freshly opened session (no annotated pages), `Save` copies the
pristine private copy straight to the destination: it succeeds, invokes no
external command at all, and the destination's bytes equal the original
input's bytes. -/
theorem c1_roundtrip_no_edits (orig dst : String) (w : World) (env : Env)
    (s : Session) (w1 : World) (tr1 : List Cmd) (f : FileInfo)
    (hw : w.fs (Path.outer orig) = some f)
    (hNew : New orig w env = (.ok s, w1, tr1)) :
    s.annotated = ∅ ∧
    (Save s dst w1 env).1 = .ok () ∧
    (Save s dst w1 env).2.2 = [] ∧
    Option.map FileInfo.content ((Save s dst w1 env).2.1.fs (Path.outer dst))
      = some f.content := by
  cases hR : env.run (Cmd.qpdfNPages orig) with
  | fail e => simp [New, hR] at hNew
  | ok out oF =>
    cases hT : goAtoi (goTrimSpace out) with
    | none => simp [New, hR, hT] at hNew
    | some p =>
      simp only [New, hR, hT, fileCopy, hw, Prod.mk.injEq, Except.ok.injEq] at hNew
      obtain ⟨hs, hw1, _⟩ := hNew
      subst hs
      subst hw1
      have hsrc : (w.write Path.srcPdf f.content).fs Path.srcPdf
          = some ⟨f.content, w.clock⟩ := by simp [World.fs_write]
      refine ⟨rfl, ?_, ?_, ?_⟩
      · simp [Save, fileCopy, hsrc]
      · simp [Save, fileCopy, hsrc]
      · simp [Save, fileCopy, hsrc, World.fs_write]

/-- C2: a successful `Save` on a session with annotated pages converts the
annotated pages in ascending page order, merges their page PDFs in that same
order, and invokes the overlay with the comma-joined ascending one-based
page numbers of exactly the annotated pages, positionally matching the
merge. -/
theorem c2_overlay_page_range (s : Session) (dst : String) (w : World) (env : Env)
    (hne : s.annotated ≠ ∅)
    (hrange : ∀ p ∈ s.annotated, 0 ≤ p ∧ p < s.pageCount)
    (hok : (Save s dst w env).1 = .ok ()) :
    (Save s dst w env).2.2 =
      (annotatedList s).map (fun i => Cmd.inkExportPdf (Path.annotPdf i) (Path.annotCleaned i))
        ++ [Cmd.qpdfMerge ((annotatedList s).map Path.annotPdf) Path.overlayPdf,
            Cmd.qpdfOverlay s.path Path.overlayPdf (pageRange (annotatedList s)) Path.finalPdf] ∧
    List.Sorted (· < ·) (annotatedList s) ∧
    (∀ p, p ∈ annotatedList s ↔ p ∈ s.annotated) ∧
    pageRange (annotatedList s) =
      String.intercalate "," ((annotatedList s).map (fun p => toString (p + 1))) := by
  refine ⟨?_, annotatedList_sorted s, annotatedList_mem s hrange, rfl⟩
  rcases hL : saveLoopGo s env (annotatedList s) w with ⟨r1, w1, tr1⟩
  cases r1 with
  | error m => simp [Save, hne, hL] at hok
  | ok u =>
    cases u
    have ht1 : tr1 = (annotatedList s).map
        (fun i => Cmd.inkExportPdf (Path.annotPdf i) (Path.annotCleaned i)) := by
      have := saveLoopGo_ok_trace s env (annotatedList s) w (by rw [hL])
      rw [hL] at this; exact this
    cases hM : env.run (Cmd.qpdfMerge ((annotatedList s).map Path.annotPdf) Path.overlayPdf) with
    | fail e => simp [Save, hne, hL, hM] at hok
    | ok so1 oF1 =>
      cases hO : env.run (Cmd.qpdfOverlay s.path Path.overlayPdf
          (pageRange (annotatedList s)) Path.finalPdf) with
      | fail e => simp [Save, hne, hL, hM, hO] at hok
      | ok so2 oF2 =>
        cases hF : ((w1.setFile Path.overlayPdf oF1).setFile Path.finalPdf oF2).fs
            Path.finalPdf with
        | none => simp [Save, hne, hL, hM, hO, fileCopy, hF] at hok
        | some g => simp [Save, hne, hL, hM, hO, fileCopy, hF, ht1]

/-- C5: if any step of `Save` fails the destination is never written (its
previous file-system state is preserved; the destination write is the last
step), and every failing step surfaces the failing operation's error text in
the returned message: the overlay tool, the merge tool, the per-page
SVG-to-PDF export tool (at the first failing annotated page, after any
prefix of successful pages), the per-page annotation-document readback, and
the readback of the overlay result before the destination copy. -/
theorem c5_failure_aborts_save (s : Session) (dst : String) (w : World) (env : Env) :
    (∀ m, (Save s dst w env).1 = .error m →
      ((Save s dst w env).2.1).fs (Path.outer dst) = w.fs (Path.outer dst)) ∧
    (∀ e, s.annotated ≠ ∅ →
      (∀ i ∈ annotatedList s, (w.fs (Path.annot i)).isSome = true ∧
        (env.run (Cmd.inkExportPdf (Path.annotPdf i) (Path.annotCleaned i))).isFail = false) →
      (env.run (Cmd.qpdfMerge ((annotatedList s).map Path.annotPdf) Path.overlayPdf)).isFail
        = false →
      env.run (Cmd.qpdfOverlay s.path Path.overlayPdf (pageRange (annotatedList s))
        Path.finalPdf) = .fail e →
      (Save s dst w env).1 = .error ("failed to overlay annotated pages to '"
        ++ Path.finalPdf.render s.tmpDir ++ "': " ++ cmdErr e)) ∧
    (∀ e, s.annotated ≠ ∅ →
      (∀ i ∈ annotatedList s, (w.fs (Path.annot i)).isSome = true ∧
        (env.run (Cmd.inkExportPdf (Path.annotPdf i) (Path.annotCleaned i))).isFail = false) →
      env.run (Cmd.qpdfMerge ((annotatedList s).map Path.annotPdf) Path.overlayPdf)
        = .fail e →
      (Save s dst w env).1 = .error ("failed to merge annotated pages to '"
        ++ Path.overlayPdf.render s.tmpDir ++ "': " ++ cmdErr e)) ∧
    (∀ e i l₁ l₂, s.annotated ≠ ∅ →
      annotatedList s = l₁ ++ i :: l₂ →
      (∀ j ∈ l₁, (w.fs (Path.annot j)).isSome = true ∧
        (env.run (Cmd.inkExportPdf (Path.annotPdf j) (Path.annotCleaned j))).isFail = false) →
      (w.fs (Path.annot i)).isSome = true →
      env.run (Cmd.inkExportPdf (Path.annotPdf i) (Path.annotCleaned i)) = .fail e →
      (Save s dst w env).1 = .error ("failed to convert annotation SVG ('"
        ++ (Path.annot i).render s.tmpDir ++ "') to PDF: " ++ cmdErr e)) ∧
    (∀ i l₁ l₂, s.annotated ≠ ∅ →
      annotatedList s = l₁ ++ i :: l₂ →
      (∀ j ∈ l₁, (w.fs (Path.annot j)).isSome = true ∧
        (env.run (Cmd.inkExportPdf (Path.annotPdf j) (Path.annotCleaned j))).isFail = false) →
      w.fs (Path.annot i) = none →
      (Save s dst w env).1 = .error ("failed to read back '"
        ++ (Path.annot i).render s.tmpDir ++ "': open " ++ (Path.annot i).render s.tmpDir
        ++ ": no such file or directory")) ∧
    (∀ so1 oF1 so2, s.annotated ≠ ∅ →
      (∀ i ∈ annotatedList s, (w.fs (Path.annot i)).isSome = true ∧
        (env.run (Cmd.inkExportPdf (Path.annotPdf i) (Path.annotCleaned i))).isFail = false) →
      env.run (Cmd.qpdfMerge ((annotatedList s).map Path.annotPdf) Path.overlayPdf)
        = .ok so1 oF1 →
      env.run (Cmd.qpdfOverlay s.path Path.overlayPdf (pageRange (annotatedList s))
        Path.finalPdf) = .ok so2 none →
      (Save s dst w env).1 = .error ("open " ++ Path.finalPdf.render s.tmpDir
        ++ ": no such file or directory")) := by
  refine ⟨?_, ?_, ?_, ?_, ?_, ?_⟩
  · intro m h
    exact save_error_dst s dst w env m h
  · intro e hne hall hM hO
    have hLok : (saveLoopGo s env (annotatedList s) w).1 = .ok () :=
      saveLoopGo_allOk s env (annotatedList s) w hall
    rcases hL : saveLoopGo s env (annotatedList s) w with ⟨r1, w1, tr1⟩
    rw [hL] at hLok
    simp only at hLok
    subst hLok
    cases hM' : env.run (Cmd.qpdfMerge ((annotatedList s).map Path.annotPdf)
        Path.overlayPdf) with
    | fail e1 => rw [hM'] at hM; simp [ToolOut.isFail] at hM
    | ok so1 oF1 => simp [Save, hne, hL, hM', hO]
  · intro e hne hall hM
    have hLok : (saveLoopGo s env (annotatedList s) w).1 = .ok () :=
      saveLoopGo_allOk s env (annotatedList s) w hall
    rcases hL : saveLoopGo s env (annotatedList s) w with ⟨r1, w1, tr1⟩
    rw [hL] at hLok
    simp only at hLok
    subst hLok
    simp [Save, hne, hL, hM]
  · intro e i l₁ l₂ hne hsplit hl₁ hstage hconv
    have hL1ok : (saveLoopGo s env l₁ w).1 = .ok () := saveLoopGo_allOk s env l₁ w hl₁
    rcases hL1 : saveLoopGo s env l₁ w with ⟨r1, w1, tr1⟩
    rw [hL1] at hL1ok
    simp only at hL1ok
    subst hL1ok
    have hfs : w1.fs (Path.annot i) = w.fs (Path.annot i) := by
      have := saveLoopGo_fs s env l₁ w (Path.annot i) (fun j _ => ⟨by simp, by simp⟩)
      rw [hL1] at this
      exact this
    obtain ⟨g, hg⟩ := Option.isSome_iff_exists.mp hstage
    have hg1 : w1.fs (Path.annot i) = some g := by rw [hfs, hg]
    have happ := saveLoopGo_append_result s env l₁ (i :: l₂) w (by rw [hL1])
    rw [hL1] at happ
    have hhead : (saveLoopGo s env (i :: l₂) w1).1
        = .error ("failed to convert annotation SVG ('"
          ++ (Path.annot i).render s.tmpDir ++ "') to PDF: " ++ cmdErr e) := by
      simp [saveLoopGo, savePage, hg1, hconv]
    rcases hLfull : saveLoopGo s env (annotatedList s) w with ⟨rf, wf, trf⟩
    have hrf : rf = .error ("failed to convert annotation SVG ('"
        ++ (Path.annot i).render s.tmpDir ++ "') to PDF: " ++ cmdErr e) := by
      have h' : (saveLoopGo s env (annotatedList s) w).1
          = Except.error ("failed to convert annotation SVG ('"
            ++ (Path.annot i).render s.tmpDir ++ "') to PDF: " ++ cmdErr e) := by
        rw [hsplit, happ, hhead]
      rw [hLfull] at h'
      exact h'
    subst hrf
    simp [Save, hne, hLfull]
  · intro i l₁ l₂ hne hsplit hl₁ hmiss
    have hL1ok : (saveLoopGo s env l₁ w).1 = .ok () := saveLoopGo_allOk s env l₁ w hl₁
    rcases hL1 : saveLoopGo s env l₁ w with ⟨r1, w1, tr1⟩
    rw [hL1] at hL1ok
    simp only at hL1ok
    subst hL1ok
    have hfs : w1.fs (Path.annot i) = w.fs (Path.annot i) := by
      have := saveLoopGo_fs s env l₁ w (Path.annot i) (fun j _ => ⟨by simp, by simp⟩)
      rw [hL1] at this
      exact this
    have hg1 : w1.fs (Path.annot i) = none := by rw [hfs, hmiss]
    have happ := saveLoopGo_append_result s env l₁ (i :: l₂) w (by rw [hL1])
    rw [hL1] at happ
    have hhead : (saveLoopGo s env (i :: l₂) w1).1
        = .error ("failed to read back '" ++ (Path.annot i).render s.tmpDir ++ "': open "
          ++ (Path.annot i).render s.tmpDir ++ ": no such file or directory") := by
      simp [saveLoopGo, savePage, hg1]
    rcases hLfull : saveLoopGo s env (annotatedList s) w with ⟨rf, wf, trf⟩
    have hrf : rf = .error ("failed to read back '" ++ (Path.annot i).render s.tmpDir
        ++ "': open " ++ (Path.annot i).render s.tmpDir
        ++ ": no such file or directory") := by
      have h' : (saveLoopGo s env (annotatedList s) w).1
          = Except.error ("failed to read back '" ++ (Path.annot i).render s.tmpDir
            ++ "': open " ++ (Path.annot i).render s.tmpDir
            ++ ": no such file or directory") := by
        rw [hsplit, happ, hhead]
      rw [hLfull] at h'
      exact h'
    subst hrf
    simp [Save, hne, hLfull]
  · intro so1 oF1 so2 hne hall hM hO
    have hLok : (saveLoopGo s env (annotatedList s) w).1 = .ok () :=
      saveLoopGo_allOk s env (annotatedList s) w hall
    rcases hL : saveLoopGo s env (annotatedList s) w with ⟨r1, w1, tr1⟩
    rw [hL] at hLok
    simp only at hLok
    subst hLok
    have hfinal : ((w1.setFile Path.overlayPdf oF1).setFile Path.finalPdf none).fs
        Path.finalPdf = none := by simp [World.fs_setFile]
    simp [Save, hne, hL, hM, hO, fileCopy, hfinal]

/-- Step 1 of `Annotate` never touches annotation documents. -/
lemma annotateStage1_fs_annot (s : Session) (page : Int) (w : World) (env : Env) (q : Int) :
    ((annotateStage1 s page w env).2.1).fs (Path.annot q) = w.fs (Path.annot q) := by
  cases hS : w.fs (Path.srcSvg page)
  · cases hR : env.run (Cmd.inkExportSvg (page + 1) (Path.srcSvgTmp page) s.path) with
    | fail e => simp [annotateStage1, hS, hR]
    | ok so oF =>
      cases oF <;>
        simp [annotateStage1, hS, hR, World.fs_rename, World.fs_setFile]
  · simp [annotateStage1, hS]

/-- Step 2 of `Annotate` either leaves an annotation document unchanged, or
(only for the page being annotated) creates it. -/
lemma annotateStage2_fs_annot (s : Session) (page : Int) (w : World) (env : Env) (q : Int) :
    ((annotateStage2 s page w env).2).fs (Path.annot q) = w.fs (Path.annot q) ∨
    (q = page ∧ (((annotateStage2 s page w env).2).fs (Path.annot q)).isSome = true) := by
  cases hA : w.fs (Path.annot page)
  case some => left; simp [annotateStage2, hA]
  case none =>
    cases hS : w.fs (Path.srcSvg page)
    · left; simp [annotateStage2, hA, hS]
    · rename_i f
      cases hP : env.parseSvg f.content
      · left; simp [annotateStage2, hA, hS, hP]
      · by_cases hq : q = page
        · right
          subst hq
          refine ⟨rfl, ?_⟩
          simp [annotateStage2, hA, hS, hP, World.fs_rename, World.fs_write]
        · left
          simp [annotateStage2, hA, hS, hP, World.fs_rename, World.fs_write, hq]

/-- C4: every annotated page always has an existing annotation document:
`Annotate` (when the editor does not delete the document it edits), `Clear`
and `Save` all preserve the invariant. -/
theorem c4_annotated_subset_staged (s : Session) (w : World) (env : Env) :
    (∀ page r s' w' tr,
      (∀ so f, env.run (Cmd.inkEdit (Path.annot page)) = .ok so f → f.isSome = true) →
      Inv s w → Annotate s page w env = .ok (r, s', w', tr) → Inv s' w') ∧
    (∀ page s' w', Inv s w → Clear s page w = .ok (s', w') → Inv s' w') ∧
    (∀ dst, Inv s w → Inv s ((Save s dst w env).2.1)) := by
  refine ⟨?_, ?_, ?_⟩
  · intro page r s' w' tr hkeep hI hEq
    unfold Annotate at hEq
    split at hEq
    · exact absurd hEq (by simp)
    rcases h1 : annotateStage1 s page w env with ⟨r1, w1, tr1⟩
    have hw1 : ∀ q, w1.fs (Path.annot q) = w.fs (Path.annot q) := by
      intro q
      have := annotateStage1_fs_annot s page w env q
      rw [h1] at this
      exact this
    cases r1 with
    | error m =>
      simp only [h1, Res.ok.injEq, Prod.mk.injEq] at hEq
      obtain ⟨_, hs, hw, _⟩ := hEq
      subst hs; subst hw
      intro p hp
      rw [hw1 p]
      exact hI p hp
    | ok u =>
      cases u
      rcases h2 : annotateStage2 s page w1 env with ⟨r2, w2⟩
      have hInv2 : Inv s w2 := by
        intro p hp
        have hl2 := annotateStage2_fs_annot s page w1 env p
        rw [h2] at hl2
        simp only at hl2
        rcases hl2 with hl2 | ⟨_, hl2⟩
        · rw [hl2, hw1 p]
          exact hI p hp
        · exact hl2
      cases r2 with
      | error m =>
        simp only [h1, h2, Res.ok.injEq, Prod.mk.injEq] at hEq
        obtain ⟨_, hs, hw, _⟩ := hEq
        subst hs; subst hw
        exact hInv2
      | ok u2 =>
        cases u2
        cases hA2 : w2.fs (Path.annot page) with
        | none =>
          simp only [h1, h2, hA2, Res.ok.injEq, Prod.mk.injEq] at hEq
          obtain ⟨_, hs, hw, _⟩ := hEq
          subst hs; subst hw
          exact hInv2
        | some before =>
          cases hRun : env.run (Cmd.inkEdit (Path.annot page)) with
          | fail e =>
            simp only [h1, h2, hA2, hRun, Res.ok.injEq, Prod.mk.injEq] at hEq
            obtain ⟨_, hs, hw, _⟩ := hEq
            subst hs; subst hw
            exact hInv2
          | ok so oF =>
            obtain ⟨af, haf⟩ := Option.isSome_iff_exists.mp (hkeep so oF hRun)
            subst haf
            have hset : (w2.setFile (Path.annot page) (some af)).fs (Path.annot page)
                = some af := by simp [World.fs_setFile]
            simp only [h1, h2, hA2, hRun, hset] at hEq
            have hInv3 : ∀ p ∈ s.annotated,
                (((w2.setFile (Path.annot page) (some af)).fs (Path.annot p)).isSome) = true := by
              intro p hp
              by_cases hpq : p = page
              · subst hpq
                rw [hset]
                rfl
              · have : (w2.setFile (Path.annot page) (some af)).fs (Path.annot p)
                    = w2.fs (Path.annot p) := by
                  simp [World.fs_setFile, hpq]
                rw [this]
                exact hInv2 p hp
            split at hEq
            · simp only [Res.ok.injEq, Prod.mk.injEq] at hEq
              obtain ⟨_, hs, hw, _⟩ := hEq
              subst hs; subst hw
              intro p hp
              simp only [Finset.mem_insert] at hp
              rcases hp with hp | hp
              · subst hp
                have hx : ((w2.setFile (Path.annot p) (some af)).remove (Path.thumb p)).fs
                    (Path.annot p) = some af := by
                  simp [World.fs_remove, World.fs_setFile]
                rw [hx]
                rfl
              · have : ((w2.setFile (Path.annot page) (some af)).remove (Path.thumb page)).fs
                    (Path.annot p) = (w2.setFile (Path.annot page) (some af)).fs (Path.annot p) := by
                  simp [World.fs_remove]
                rw [this]
                exact hInv3 p hp
            · simp only [Res.ok.injEq, Prod.mk.injEq] at hEq
              obtain ⟨_, hs, hw, _⟩ := hEq
              subst hs; subst hw
              exact hInv3
  · intro page s' w' hI hEq
    unfold Clear at hEq
    split at hEq
    · exact absurd hEq (by simp)
    · simp only [Res.ok.injEq, Prod.mk.injEq] at hEq
      obtain ⟨hs, hw⟩ := hEq
      subst hs; subst hw
      intro p hp
      simp only [Finset.mem_erase] at hp
      obtain ⟨hne, hp⟩ := hp
      have : ((w.remove (Path.annot page)).remove (Path.thumb page)).fs (Path.annot p)
          = w.fs (Path.annot p) := by
        simp [World.fs_remove, hne]
      rw [this]
      exact hI p hp
  · intro dst hI p hp
    rw [save_fs s dst w env (Path.annot p) (fun i => by simp) (fun i => by simp)
      (by simp) (by simp) (by simp)]
    exact hI p hp

/-- Running `Save` a second time, on the file system the first run left
behind, yields the same status, the same command trace and the same
destination bytes: `Save` reads only state it never modifies. -/
lemma save_twice (s : Session) (dst : String) (w : World) (env : Env) :
    (Save s dst ((Save s dst w env).2.1) env).1 = (Save s dst w env).1 ∧
    (Save s dst ((Save s dst w env).2.1) env).2.2 = (Save s dst w env).2.2 ∧
    Option.map FileInfo.content ((Save s dst ((Save s dst w env).2.1) env).2.1.fs
        (Path.outer dst))
      = Option.map FileInfo.content ((Save s dst w env).2.1.fs (Path.outer dst)) := by
  by_cases hq : s.annotated = ∅
  · cases hS : w.fs s.path with
    | none => simp [Save, hq, fileCopy, hS]
    | some g =>
      by_cases hsp : s.path = Path.outer dst
      · have hS' : w.fs (Path.outer dst) = some g := hsp ▸ hS
        simp [Save, hq, fileCopy, hsp, hS', World.fs_write]
      · simp [Save, hq, fileCopy, hS, World.fs_write, hsp]
  · rcases hL1 : saveLoopGo s env (annotatedList s) w with ⟨r1, w1, tr1⟩
    have hannots1 : ∀ i ∈ annotatedList s, w1.fs (Path.annot i) = w.fs (Path.annot i) := by
      intro i _
      have := saveLoopGo_fs s env (annotatedList s) w (Path.annot i)
        (fun j _ => ⟨by simp, by simp⟩)
      rw [hL1] at this
      exact this
    cases r1 with
    | error m =>
      have hsave1 : Save s dst w env = (.error m, w1, tr1) := by simp [Save, hq, hL1]
      rcases hL2 : saveLoopGo s env (annotatedList s) w1 with ⟨r2, w2, tr2⟩
      have hcg := saveLoopGo_congr s env (annotatedList s) w1 w
        (fun i hi => by rw [hannots1 i hi])
      rw [hL1, hL2] at hcg
      obtain ⟨hr2, htr2⟩ := hcg
      simp only at hr2 htr2
      subst hr2
      subst htr2
      have hw2 : w2.fs (Path.outer dst) = w1.fs (Path.outer dst) := by
        have := saveLoopGo_fs s env (annotatedList s) w1 (Path.outer dst)
          (fun j _ => ⟨by simp, by simp⟩)
        rw [hL2] at this
        exact this
      rw [hsave1]
      simp [Save, hq, hL2, hw2]
    | ok u =>
      cases u
      cases hM : env.run (Cmd.qpdfMerge ((annotatedList s).map Path.annotPdf)
          Path.overlayPdf) with
      | fail e =>
        have hsave1 : Save s dst w env = (.error ("failed to merge annotated pages to '"
            ++ Path.overlayPdf.render s.tmpDir ++ "': " ++ cmdErr e), w1,
            tr1 ++ [Cmd.qpdfMerge ((annotatedList s).map Path.annotPdf) Path.overlayPdf]) := by
          simp [Save, hq, hL1, hM]
        rcases hL2 : saveLoopGo s env (annotatedList s) w1 with ⟨r2, w2, tr2⟩
        have hcg := saveLoopGo_congr s env (annotatedList s) w1 w
          (fun i hi => by rw [hannots1 i hi])
        rw [hL1, hL2] at hcg
        obtain ⟨hr2, htr2⟩ := hcg
        simp only at hr2 htr2
        subst hr2
        subst htr2
        have hw2 : w2.fs (Path.outer dst) = w1.fs (Path.outer dst) := by
          have := saveLoopGo_fs s env (annotatedList s) w1 (Path.outer dst)
            (fun j _ => ⟨by simp, by simp⟩)
          rw [hL2] at this
          exact this
        rw [hsave1]
        simp [Save, hq, hL2, hM, hw2]
      | ok so1 oF1 =>
        cases hO : env.run (Cmd.qpdfOverlay s.path Path.overlayPdf
            (pageRange (annotatedList s)) Path.finalPdf) with
        | fail e =>
          have hsave1 : Save s dst w env = (.error ("failed to overlay annotated pages to '"
              ++ Path.finalPdf.render s.tmpDir ++ "': " ++ cmdErr e),
              w1.setFile Path.overlayPdf oF1,
              tr1 ++ [Cmd.qpdfMerge ((annotatedList s).map Path.annotPdf) Path.overlayPdf,
                Cmd.qpdfOverlay s.path Path.overlayPdf (pageRange (annotatedList s))
                  Path.finalPdf]) := by
            simp [Save, hq, hL1, hM, hO]
          rcases hL2 : saveLoopGo s env (annotatedList s) (w1.setFile Path.overlayPdf oF1)
            with ⟨r2, w2, tr2⟩
          have hcg := saveLoopGo_congr s env (annotatedList s) (w1.setFile Path.overlayPdf oF1) w
            (fun i hi => by simp [World.fs_setFile, hannots1 i hi])
          rw [hL1, hL2] at hcg
          obtain ⟨hr2, htr2⟩ := hcg
          simp only at hr2 htr2
          subst hr2
          subst htr2
          have hw2 : w2.fs (Path.outer dst)
              = (w1.setFile Path.overlayPdf oF1).fs (Path.outer dst) := by
            have := saveLoopGo_fs s env (annotatedList s) (w1.setFile Path.overlayPdf oF1)
              (Path.outer dst) (fun j _ => ⟨by simp, by simp⟩)
            rw [hL2] at this
            exact this
          rw [hsave1]
          simp [Save, hq, hL2, hM, hO, World.fs_setFile, hw2]
        | ok so2 oF2 =>
          have hfinal1 : ((w1.setFile Path.overlayPdf oF1).setFile Path.finalPdf oF2).fs
              Path.finalPdf = oF2 := by simp [World.fs_setFile]
          cases oF2 with
          | none =>
            have hsave1 : Save s dst w env = (.error ("open "
                ++ Path.finalPdf.render s.tmpDir ++ ": no such file or directory"),
                (w1.setFile Path.overlayPdf oF1).setFile Path.finalPdf none,
                tr1 ++ [Cmd.qpdfMerge ((annotatedList s).map Path.annotPdf) Path.overlayPdf,
                  Cmd.qpdfOverlay s.path Path.overlayPdf (pageRange (annotatedList s))
                    Path.finalPdf]) := by
              simp [Save, hq, hL1, hM, hO, fileCopy, hfinal1]
            rcases hL2 : saveLoopGo s env (annotatedList s)
                ((w1.setFile Path.overlayPdf oF1).setFile Path.finalPdf none)
              with ⟨r2, w2, tr2⟩
            have hcg := saveLoopGo_congr s env (annotatedList s)
              ((w1.setFile Path.overlayPdf oF1).setFile Path.finalPdf none) w
              (fun i hi => by simp [World.fs_setFile, hannots1 i hi])
            rw [hL1, hL2] at hcg
            obtain ⟨hr2, htr2⟩ := hcg
            simp only at hr2 htr2
            subst hr2
            subst htr2
            have hfinal2 : ((w2.setFile Path.overlayPdf oF1).setFile Path.finalPdf none).fs
                Path.finalPdf = none := by simp [World.fs_setFile]
            have hw2 : w2.fs (Path.outer dst)
                = ((w1.setFile Path.overlayPdf oF1).setFile Path.finalPdf none).fs
                  (Path.outer dst) := by
              have := saveLoopGo_fs s env (annotatedList s)
                ((w1.setFile Path.overlayPdf oF1).setFile Path.finalPdf none)
                (Path.outer dst) (fun j _ => ⟨by simp, by simp⟩)
              rw [hL2] at this
              exact this
            rw [hsave1]
            simp [Save, hq, hL2, hM, hO, fileCopy, hfinal2, World.fs_setFile, hw2]
          | some g =>
            have hsave1 : Save s dst w env = (.ok (),
                (((w1.setFile Path.overlayPdf oF1).setFile Path.finalPdf (some g)).write
                  (Path.outer dst) g.content),
                tr1 ++ [Cmd.qpdfMerge ((annotatedList s).map Path.annotPdf) Path.overlayPdf,
                  Cmd.qpdfOverlay s.path Path.overlayPdf (pageRange (annotatedList s))
                    Path.finalPdf]) := by
              simp [Save, hq, hL1, hM, hO, fileCopy, hfinal1]
            rcases hL2 : saveLoopGo s env (annotatedList s)
                (((w1.setFile Path.overlayPdf oF1).setFile Path.finalPdf (some g)).write
                  (Path.outer dst) g.content)
              with ⟨r2, w2, tr2⟩
            have hcg := saveLoopGo_congr s env (annotatedList s)
              (((w1.setFile Path.overlayPdf oF1).setFile Path.finalPdf (some g)).write
                (Path.outer dst) g.content) w
              (fun i hi => by simp [World.fs_setFile, World.fs_write, hannots1 i hi])
            rw [hL1, hL2] at hcg
            obtain ⟨hr2, htr2⟩ := hcg
            simp only at hr2 htr2
            subst hr2
            subst htr2
            have hfinal2 : ((w2.setFile Path.overlayPdf oF1).setFile Path.finalPdf (some g)).fs
                Path.finalPdf = some g := by simp [World.fs_setFile]
            rw [hsave1]
            simp [Save, hq, hL2, hM, hO, fileCopy, hfinal2, World.fs_setFile, World.fs_write]

/-- C10: `Save` never mutates the session's own state: every annotation
document and the pristine PDF copy are unchanged on disk (success or
failure), the annotated set is untouched (`Save` returns no session update
at all), and a second consecutive `Save` to the same destination yields the
same status, trace and destination bytes. -/
theorem c10_save_no_mutation (s : Session) (dst : String) (w : World) (env : Env) :
    (∀ q, ((Save s dst w env).2.1).fs (Path.annot q) = w.fs (Path.annot q)) ∧
    ((Save s dst w env).2.1).fs Path.srcPdf = w.fs Path.srcPdf ∧
    (Save s dst ((Save s dst w env).2.1) env).1 = (Save s dst w env).1 ∧
    (Save s dst ((Save s dst w env).2.1) env).2.2 = (Save s dst w env).2.2 ∧
    Option.map FileInfo.content ((Save s dst ((Save s dst w env).2.1) env).2.1.fs
        (Path.outer dst))
      = Option.map FileInfo.content ((Save s dst w env).2.1.fs (Path.outer dst)) := by
  obtain ⟨h1, h2, h3⟩ := save_twice s dst w env
  refine ⟨?_, ?_, h1, h2, h3⟩
  · intro q
    exact save_fs s dst w env (Path.annot q) (fun i => by simp) (fun i => by simp)
      (by simp) (by simp) (by simp)
  · exact save_fs s dst w env Path.srcPdf (fun i => by simp) (fun i => by simp)
      (by simp) (by simp) (by simp)

/-- Concrete five-page session with pages 0, 2 and 4 annotated, used by the
witnesses. -/
def s5 : Session := ⟨Path.srcPdf, 5, "/tmp/pf", {0, 2, 4}⟩

/-- Concrete staging state for the witnesses: the original input, the three
annotation documents of the annotated pages, and a staged but unannotated
page 1. -/
def w5 : World :=
  ⟨fun p => match p with
    | .outer "in.pdf" => some ⟨"ORIG", 0⟩
    | .annot 0 => some ⟨"A0", 1⟩
    | .annot 2 => some ⟨"A2", 2⟩
    | .annot 4 => some ⟨"A4", 3⟩
    | .srcSvg 1 => some ⟨"S1", 4⟩
    | .annot 1 => some ⟨"AN1", 5⟩
    | _ => none, 10⟩

/-- Benign environment for the witnesses: every external command succeeds and
produces its output file. -/
def okEnv : Env where
  run := fun c => match c with
    | .qpdfNPages _ => .ok "5\n" none
    | .pdftocairo _ _ _ => .ok "" (some ⟨"PNG", 100⟩)
    | .inkExportSvg _ _ _ => .ok "" (some ⟨"SVG", 101⟩)
    | .inkEdit _ => .ok "" (some ⟨"EDITED", 102⟩)
    | .inkExportPdf _ _ => .ok "" (some ⟨"PAGEPDF", 103⟩)
    | .qpdfMerge _ _ => .ok "" (some ⟨"MERGED", 104⟩)
    | .qpdfOverlay _ _ _ _ => .ok "" (some ⟨"FINAL", 105⟩)
  parseSvg := fun _ => .ok ⟨"10", "20", "0 0 10 20"⟩
  stripBG := fun c => c
  tempDir := "/tmp/pf"

/-- Environment whose overlay invocation fails. -/
def ovlFailEnv : Env :=
  { okEnv with run := fun c => match c with
      | .qpdfOverlay _ _ _ _ => .fail (.exit 2 "ovl boom")
      | _ => okEnv.run c }

/-- Environment whose page-count query fails. -/
def npagesFailEnv : Env :=
  { okEnv with run := fun c => match c with
      | .qpdfNPages _ => .fail (.exit 1 "np boom")
      | _ => okEnv.run c }

/-- Environment whose page-to-SVG export fails. -/
def expFailEnv : Env :=
  { okEnv with run := fun c => match c with
      | .inkExportSvg _ _ _ => .fail (.exit 1 "exp boom")
      | _ => okEnv.run c }

/-- Environment whose interactive editor launch fails. -/
def editFailEnv : Env :=
  { okEnv with run := fun c => match c with
      | .inkEdit _ => .fail (.exit 3 "ed boom")
      | _ => okEnv.run c }

/-- Witness for C1 at a concrete input. -/
theorem c1_roundtrip_witness :
    (⟨Path.srcPdf, 5, "/tmp/pf", (∅ : Finset Int)⟩ : Session).annotated = ∅ ∧
    (Save ⟨Path.srcPdf, 5, "/tmp/pf", ∅⟩ "out.pdf" (w5.write Path.srcPdf "ORIG") okEnv).1
      = .ok () ∧
    (Save ⟨Path.srcPdf, 5, "/tmp/pf", ∅⟩ "out.pdf" (w5.write Path.srcPdf "ORIG") okEnv).2.2
      = [] ∧
    Option.map FileInfo.content ((Save ⟨Path.srcPdf, 5, "/tmp/pf", ∅⟩ "out.pdf"
        (w5.write Path.srcPdf "ORIG") okEnv).2.1.fs (Path.outer "out.pdf"))
      = some "ORIG" :=
  c1_roundtrip_no_edits "in.pdf" "out.pdf" w5 okEnv ⟨Path.srcPdf, 5, "/tmp/pf", ∅⟩
    (w5.write Path.srcPdf "ORIG") [Cmd.qpdfNPages "in.pdf"] ⟨"ORIG", 0⟩ (by decide) rfl

/-- Witness for C2 at a concrete input: pages {0, 2, 4} of five yield the
page list "1,3,5". -/
theorem c2_overlay_witness :
    pageRange (annotatedList s5) = "1,3,5" ∧
    (Save s5 "out.pdf" w5 okEnv).1 = .ok () ∧
    (Save s5 "out.pdf" w5 okEnv).2.2 =
      (annotatedList s5).map (fun i => Cmd.inkExportPdf (Path.annotPdf i) (Path.annotCleaned i))
        ++ [Cmd.qpdfMerge ((annotatedList s5).map Path.annotPdf) Path.overlayPdf,
            Cmd.qpdfOverlay s5.path Path.overlayPdf (pageRange (annotatedList s5))
              Path.finalPdf] ∧
    List.Sorted (· < ·) (annotatedList s5) ∧
    ((2:Int) ∈ annotatedList s5 ↔ (2:Int) ∈ s5.annotated) := by
  have h := c2_overlay_page_range s5 "out.pdf" w5 okEnv (by decide) (by decide) (by decide)
  exact ⟨by decide, by decide, h.1, h.2.1, h.2.2.1 2⟩

/-- Witness for C3 at a concrete input (page 1, staged, editor changes the
modification time from 5 to 102). -/
theorem c3_change_witness :
    Annotate s5 1 w5 okEnv = Res.ok (Except.ok true,
      { s5 with annotated := insert 1 s5.annotated },
      (w5.setFile (Path.annot 1) (some ⟨"EDITED", 102⟩)).remove (Path.thumb 1),
      [Cmd.inkEdit (Path.annot 1)]) ∧
    ((w5.setFile (Path.annot 1) (some ⟨"EDITED", 102⟩)).remove (Path.thumb 1)).fs
        (Path.thumb 1) = none ∧
    IsAnnotated { s5 with annotated := insert 1 s5.annotated } 1 = Res.ok true := by
  have h := c3_change_detection s5 1 w5 okEnv "" ⟨"AN1", 5⟩ ⟨"EDITED", 102⟩
    (by decide) (by decide) (by decide) (by decide) (by decide)
  exact ⟨h.1, (h.2.1 (by decide)).1, (h.2.1 (by decide)).2⟩

/-- Witness for C4 at concrete inputs: the invariant holds initially and is
preserved by a concrete `Annotate`, and by `Save`. -/
theorem c4_invariant_witness :
    Inv s5 w5 ∧
    Inv { s5 with annotated := insert 1 s5.annotated }
      ((w5.setFile (Path.annot 1) (some ⟨"EDITED", 102⟩)).remove (Path.thumb 1)) ∧
    Inv s5 ((Save s5 "out.pdf" w5 okEnv).2.1) := by
  have h := c4_annotated_subset_staged s5 w5 okEnv
  have hInv : Inv s5 w5 := by intro p hp; fin_cases hp <;> decide
  refine ⟨hInv, ?_, h.2.2 "out.pdf" hInv⟩
  exact h.1 1 (Except.ok true) _ _ _ (by intro so f hh; cases hh; rfl) hInv rfl

/-- Environment whose qpdf merge invocation fails. -/
def mergeFailEnv : Env :=
  { okEnv with run := fun c => match c with
      | .qpdfMerge _ _ => .fail (.exit 4 "mg boom")
      | _ => okEnv.run c }

/-- Environment whose page SVG-to-PDF export fails. -/
def convFailEnv : Env :=
  { okEnv with run := fun c => match c with
      | .inkExportPdf _ _ => .fail (.exit 5 "cv boom")
      | _ => okEnv.run c }

/-- Environment whose overlay invocation "succeeds" without producing its
output file. -/
def ovlNoneEnv : Env :=
  { okEnv with run := fun c => match c with
      | .qpdfOverlay _ _ _ _ => .ok "" none
      | _ => okEnv.run c }

/-- Staging state missing the annotation document of annotated page 4. -/
def w5r : World :=
  ⟨fun p => match p with
    | .annot 0 => some ⟨"A0", 1⟩
    | .annot 2 => some ⟨"A2", 2⟩
    | _ => none, 10⟩

/-- Witness for C5 at concrete inputs: a failing overlay, merge, per-page
export, annotation readback and final readback each abort the save with the
failing operation's error text in the message, and the (absent) destination
file stays absent. -/
theorem c5_failure_witness :
    (Save s5 "out.pdf" w5 ovlFailEnv).1 = .error ("failed to overlay annotated pages to '"
      ++ Path.finalPdf.render s5.tmpDir ++ "': " ++ cmdErr (GoErr.exit 2 "ovl boom")) ∧
    ((Save s5 "out.pdf" w5 ovlFailEnv).2.1).fs (Path.outer "out.pdf")
      = w5.fs (Path.outer "out.pdf") ∧
    w5.fs (Path.outer "out.pdf") = none ∧
    cmdErr (GoErr.exit 2 "ovl boom") = "ovl boom" ∧
    (Save s5 "out.pdf" w5 mergeFailEnv).1 = .error ("failed to merge annotated pages to '"
      ++ Path.overlayPdf.render s5.tmpDir ++ "': " ++ cmdErr (GoErr.exit 4 "mg boom")) ∧
    (Save s5 "out.pdf" w5 convFailEnv).1 = .error ("failed to convert annotation SVG ('"
      ++ (Path.annot 0).render s5.tmpDir ++ "') to PDF: " ++ cmdErr (GoErr.exit 5 "cv boom")) ∧
    (Save s5 "out.pdf" w5r okEnv).1 = .error ("failed to read back '"
      ++ (Path.annot 4).render s5.tmpDir ++ "': open " ++ (Path.annot 4).render s5.tmpDir
      ++ ": no such file or directory") ∧
    (Save s5 "out.pdf" w5 ovlNoneEnv).1 = .error ("open " ++ Path.finalPdf.render s5.tmpDir
      ++ ": no such file or directory") := by
  have h := c5_failure_aborts_save s5 "out.pdf" w5 ovlFailEnv
  have hm := h.2.1 (GoErr.exit 2 "ovl boom") (by decide) (by decide) (by decide) (by decide)
  have hmerge := (c5_failure_aborts_save s5 "out.pdf" w5 mergeFailEnv).2.2.1
    (GoErr.exit 4 "mg boom") (by decide) (by decide) (by decide)
  have hconv := (c5_failure_aborts_save s5 "out.pdf" w5 convFailEnv).2.2.2.1
    (GoErr.exit 5 "cv boom") 0 [] [2, 4] (by decide) (by decide) (by decide)
    (by decide) (by decide)
  have hread := (c5_failure_aborts_save s5 "out.pdf" w5r okEnv).2.2.2.2.1
    4 [0, 2] [] (by decide) (by decide) (by decide) (by decide)
  have hfin := (c5_failure_aborts_save s5 "out.pdf" w5 ovlNoneEnv).2.2.2.2.2
    "" (some ⟨"MERGED", 104⟩) "" (by decide) (by decide) (by decide) (by decide)
  exact ⟨hm, h.1 _ hm, by decide, rfl, hmerge, hconv, hread, hfin⟩

/-- Witness for C6 at a concrete input (cold page 3). -/
theorem c6_idempotent_witness :
    (∃ w1, Thumbnail s5 3 w5 okEnv = .ok (.ok ((Path.thumb 3).render s5.tmpDir), w1,
        [Cmd.pdftocairo (3 + 1) s5.path (Path.thumbTmp 3)]) ∧
      Thumbnail s5 3 w1 okEnv = .ok (.ok ((Path.thumb 3).render s5.tmpDir), w1, [])) ∧
    (∃ b1 s1 w1, Annotate s5 3 w5 okEnv = .ok (.ok b1, s1, w1,
        [Cmd.inkExportSvg (3 + 1) (Path.srcSvgTmp 3) s5.path,
         Cmd.inkEdit (Path.annot 3)]) ∧
      ∃ s2 w2, Annotate s1 3 w1 okEnv = .ok (.ok false, s2, w2,
        [Cmd.inkEdit (Path.annot 3)])) :=
  c6_idempotent_staging s5 3 w5 okEnv ⟨"PNG", 100⟩ ⟨"SVG", 101⟩ ⟨"EDITED", 102⟩ "" "" ""
    ⟨"10", "20", "0 0 10 20"⟩ (by decide) (by decide) (by decide) (by decide) (by decide)
    (by decide) (by decide) (by decide) (by decide)

/-- Witness for the amended C7 at concrete inputs: the page-count failure is
"np boom" verbatim; the export failure embeds "exp boom"; the editor failure
reports only "exit status 3", not "ed boom". -/
theorem c7_surfacing_witness :
    (New "in.pdf" w5 npagesFailEnv).1 = Except.error (cmdErr (GoErr.exit 1 "np boom")) ∧
    cmdErr (GoErr.exit 1 "np boom") = "np boom" ∧
    aRes (Annotate s5 0 w5 expFailEnv) = some (Except.error
      ("failed to convert page " ++ toString (0:Int) ++ " of '" ++ s5.path.render s5.tmpDir
        ++ "' to svg: " ++ cmdErr (GoErr.exit 1 "exp boom"))) ∧
    aRes (Annotate s5 1 w5 editFailEnv) = some (Except.error
      ("inkscape exited with error while editing '" ++ (Path.annot 1).render s5.tmpDir
        ++ "': " ++ GoErr.message (GoErr.exit 3 "ed boom"))) ∧
    GoErr.message (GoErr.exit 3 "ed boom") = "exit status " ++ toString 3 := by
  have hA := (c7_stderr_surfacing "in.pdf" w5 npagesFailEnv s5 0).1
    (GoErr.exit 1 "np boom") (by decide)
  have hB := (c7_stderr_surfacing "in.pdf" w5 expFailEnv s5 0).2.1
    (GoErr.exit 1 "exp boom") (by decide) (by decide) (by decide) (by decide)
  have hC := (c7_stderr_surfacing "in.pdf" w5 editFailEnv s5 1).2.2.1
    3 "ed boom" ⟨"AN1", 5⟩ (by decide) (by decide) (by decide) (by decide) (by decide)
  exact ⟨hA, rfl, hB, hC, rfl⟩

/-- Witness for C8 at concrete inputs: out-of-range indices -1 and 5 panic,
in-range index 1 does not. -/
theorem c8_contract_witness :
    Thumbnail s5 (-1) w5 okEnv = .panicked "invalid page number" ∧
    Annotate s5 (-1) w5 okEnv = .panicked "invalid page number" ∧
    Clear s5 (-1) w5 = .panicked "invalid page number" ∧
    IsAnnotated s5 (-1) = .panicked "invalid page number" ∧
    Annotate s5 5 w5 okEnv = .panicked "invalid page number" ∧
    (Thumbnail s5 1 w5 okEnv).isPanicked = false ∧
    (Annotate s5 1 w5 okEnv).isPanicked = false ∧
    (Clear s5 1 w5).isPanicked = false ∧
    (IsAnnotated s5 1).isPanicked = false := by
  have hA := (c8_out_of_range_contract s5 w5 okEnv (-1)).1 (by decide)
  have hB := (c8_out_of_range_contract s5 w5 okEnv 5).1 (by decide)
  have hC := (c8_out_of_range_contract s5 w5 okEnv 1).2 (by decide) (by decide)
  exact ⟨hA.1, hA.2.1, hA.2.2.1, hA.2.2.2, hB.2.1, hC.1, hC.2.1, hC.2.2.1, hC.2.2.2⟩

/-- Witness for the amended C9 at a concrete input. -/
theorem c9_close_witness :
    IsClosed (Close cexSession cexWorld).1 = true ∧
    Thumbnail (Close cexSession cexWorld).1 0 (Close cexSession cexWorld).2 okEnv
      = .panicked "invalid page number" ∧
    Annotate (Close cexSession cexWorld).1 0 (Close cexSession cexWorld).2 okEnv
      = .panicked "invalid page number" ∧
    Clear (Close cexSession cexWorld).1 0 (Close cexSession cexWorld).2
      = .panicked "invalid page number" ∧
    IsAnnotated (Close cexSession cexWorld).1 0 = .panicked "invalid page number" ∧
    (Save (Close cexSession cexWorld).1 "out.pdf" (Close cexSession cexWorld).2 okEnv).1
      = .error "open : no such file or directory" ∧
    HasAnnotations (Close cexSession cexWorld).1 = false ∧
    PageCount (Close cexSession cexWorld).1 = -1 :=
  c9_after_close cexSession cexWorld 0 "out.pdf" okEnv (by decide)

end Frank
